import Mathlib

/-!
# Project workflow controller of `frontend/src/App.jsx`

A shallow embedding of the controller logic of the single-page client:
the transport helpers (`jget`, `jpost`, `downloadFile`), the project list
aggregation (`Lista.load`), the create-project form, the upload screen
(`SubirArticulos`), the gaps screen (`BrechasProyecto`) and the router (`App`).

JavaScript values that come from the backend are JSON values (`JVal`).
An `async` function is a state transformer that ends either normally or
with a thrown error; the outcome of every network exchange it awaits is an
argument of the function.
-/

namespace CapstoneMatriz

/-! ## JSON values -/

/-- JSON values as produced by `JSON.parse` / `Response.json()`.  Numbers are
restricted to the integers (every count and identifier handled by this
program is one). -/
inductive JVal where
  | null
  | bool (b : Bool)
  | num (n : Int)
  | str (s : String)
  | arr (xs : List JVal)
  | obj (kvs : List (String × JVal))

instance : Inhabited JVal := ⟨JVal.null⟩

/-- Own properties of an object, in insertion order. -/
abbrev JObj := List (String × JVal)

/-- Property read `o[k]` on an object; `none` is `undefined`. -/
def JObj.get (o : JObj) (k : String) : Option JVal :=
  match o with
  | [] => none
  | (k1, v) :: rest => if k1 = k then some v else JObj.get rest k

/-- Property write `o[k] = v`: an existing key keeps its position, a new key
is appended. -/
def JObj.set (o : JObj) (k : String) (v : JVal) : JObj :=
  match o with
  | [] => [(k, v)]
  | (k1, v1) :: rest => if k1 = k then (k, v) :: rest else (k1, v1) :: JObj.set rest k v

/-- JavaScript truthiness (`!!v`) of a JSON value. -/
def JVal.truthy : JVal → Bool
  | .null => false
  | .bool b => b
  | .num n => n != 0
  | .str s => s != ""
  | .arr _ => true
  | .obj _ => true

/-- `Array.isArray(v)`. -/
def JVal.isArray : JVal → Bool
  | .arr _ => true
  | _ => false

/-- `v.length` for an array `v` (only used behind `Array.isArray`). -/
def JVal.length : JVal → Nat
  | .arr xs => xs.length
  | _ => 0

/-- Thrown JavaScript errors: `message`, and the `detail` property that the
transport helpers attach (`none` when the property is absent). -/
structure JsError where
  name : String
  message : String
  detail : Option JVal

/-- `new Error(message)` -/
def mkError (message : String) : JsError :=
  { name := "Error", message := message, detail := none }

/-- A `TypeError` raised by the runtime. -/
def typeError (message : String) : JsError :=
  { name := "TypeError", message := message, detail := none }

/-- A `SyntaxError` raised by `JSON.parse` / `Response.json()`. -/
def syntaxError : JsError :=
  { name := "SyntaxError", message := "Unexpected token in JSON", detail := none }

/-- Property read `p.id`: throws on `null`, is `undefined` (`none`) when the
property is missing or `p` is not an object. -/
def idOf (p : JVal) : Except JsError (Option JVal) :=
  match p with
  | .null => .error (typeError "Cannot read properties of null (reading id)")
  | .obj kvs => .ok (JObj.get kvs "id")
  | _ => .ok none

/-- Keys `"0"`, `"1"`, ... paired with the elements of a list, from index `i`. -/
def indexed (i : Nat) : List JVal → JObj
  | [] => []
  | x :: xs => (toString i, x) :: indexed (i + 1) xs

/-- Object spread `{...p}`: the own enumerable properties of `p`.  `null`,
booleans and numbers have none; arrays and strings spread into their indexed
elements. -/
def spread (p : JVal) : JObj :=
  match p with
  | .obj kvs => kvs
  | .arr xs => indexed 0 xs
  | .str s => indexed 0 (s.toList.map fun c => JVal.str (String.singleton c))
  | _ => []

mutual
/-- Text of a value inside a template literal (`String(v)`). -/
def jsString : JVal → String
  | .null => "null"
  | .bool b => if b then "true" else "false"
  | .num n => toString n
  | .str s => s
  | .arr xs => joinElems xs
  | .obj _ => "[object Object]"
/-- `Array.prototype.join` with the default separator: `null` elements are
rendered as the empty text. -/
def joinElems : List JVal → String
  | [] => ""
  | [.null] => ""
  | [x] => jsString x
  | .null :: xs => "," ++ joinElems xs
  | x :: xs => jsString x ++ "," ++ joinElems xs
end

/-- Text of `v` inside a template literal, where `none` is `undefined`. -/
def templ (v : Option JVal) : String :=
  match v with
  | none => "undefined"
  | some j => jsString j

/-! ## Transport -/

/-- A response as seen by the helpers: status, body text, and the result of
parsing the body text as JSON (`none` when it is not valid JSON). -/
structure Response where
  status : Nat
  text : String
  json : Option JVal

/-- `r.ok`: the status is in the range 200–299. -/
def Response.ok (r : Response) : Bool :=
  decide (200 ≤ r.status) && decide (r.status ≤ 299)

/-- `JSON.parse(r.text)`; the empty text is never valid JSON. -/
def Response.parse (r : Response) : Option JVal :=
  if r.text = "" then none else r.json

/-- Outcome of `await fetch(...)`: a rejected promise or a response. -/
abbrev FetchOutcome := Except JsError Response

/-- The error raised when a body that was already consumed is read again. -/
def bodyUsed : JsError := typeError "body stream already read"

/-- Block shared by `jget`, `subirPDF` and `downloadFile`:
`try { detail = await r.json() } catch { detail = await r.text() }`.
A failed `r.json()` has consumed the body, so the `r.text()` in the handler
rejects. -/
def detailViaJson (r : Response) : Except JsError JVal :=
  match r.parse with
  | some j => .ok j
  | none => .error bodyUsed

/-- `async function jget(url)`, given the outcome of `fetch(url)`. -/
def jget (url : String) (fetched : FetchOutcome) : Except JsError JVal :=
  match fetched with
  | .error e => .error e
  | .ok r =>
    if !r.ok then
      match detailViaJson r with
      | .error e => .error e
      | .ok detail =>
        .error { mkError ("GET " ++ url ++ " → " ++ toString r.status) with detail := some detail }
    else
      match r.parse with
      | some j => .ok j
      | none => .error syntaxError

/-- `async function jpost(url, body)`, given the outcome of the `fetch`. -/
def jpost (url : String) (_body : JVal) (fetched : FetchOutcome) : Except JsError JVal :=
  match fetched with
  | .error e => .error e
  | .ok r =>
    let txt := r.text
    if !r.ok then
      let detail := match r.parse with
        | some j => j
        | none => JVal.str txt
      .error { mkError ("POST " ++ url ++ " → " ++ toString r.status) with detail := some detail }
    else if txt != "" then
      match r.parse with
      | some j => .ok j
      | none => .error syntaxError
    else .ok (.obj [])

/-! ## Components as state transformers -/

/-- The `view` state of `App`: welcome | list | create | subir | brechas. -/
inductive View where
  | welcome
  | list
  | create
  | subir
  | brechas
  deriving DecidableEq, Repr

/-- State of the `App` router: `view` and `proyectoSel` (`null` when no project
is selected). -/
structure AppState where
  view : View
  proyectoSel : JVal

/-- Initial state of `App`. -/
def AppState.init : AppState := { view := .welcome, proyectoSel := .null }

/-- What a handler of a screen can change: the router state, the state of the
mounted screen, the dialogs and console lines it has emitted, and the names of
the files it has saved. -/
structure Ui (σ : Type) where
  app : AppState
  screen : σ
  alerts : List String
  consola : List JsError
  descargas : List String := []

/-- An `async` function over the state of a screen: it ends normally with a
value or with a thrown error, and state written before a throw stays written. -/
def Js (σ α : Type) : Type := Ui σ → Except JsError α × Ui σ

instance (σ : Type) : Monad (Js σ) where
  pure a := fun u => (.ok a, u)
  bind m f := fun u =>
    match m u with
    | (.ok a, u1) => f a u1
    | (.error e, u1) => (.error e, u1)

/-- `throw e` -/
def Js.throw {σ α : Type} (e : JsError) : Js σ α := fun u => (.error e, u)

/-- `await` of an exchange whose outcome is known. -/
def Js.await {σ α : Type} (r : Except JsError α) : Js σ α := fun u => (r, u)

/-- A state update of the mounted screen (`setX(...)`). -/
def Js.setScreen {σ : Type} (f : σ → σ) : Js σ Unit :=
  fun u => (.ok (), { u with screen := f u.screen })

/-- A state update of the router. -/
def Js.setApp {σ : Type} (f : AppState → AppState) : Js σ Unit :=
  fun u => (.ok (), { u with app := f u.app })

/-- `alert(text)` -/
def Js.alert {σ : Type} (text : String) : Js σ Unit :=
  fun u => (.ok (), { u with alerts := u.alerts ++ [text] })

/-- `console.error(e)` -/
def Js.consoleError {σ : Type} (e : JsError) : Js σ Unit :=
  fun u => (.ok (), { u with consola := u.consola ++ [e] })

/-- The save action of `downloadFile`: an anchor with `download = filename` is
clicked. -/
def Js.guardar {σ : Type} (filename : String) : Js σ Unit :=
  fun u => (.ok (), { u with descargas := u.descargas ++ [filename] })

/-- `try { body } catch (e) { handler e }` -/
def Js.tryCatch {σ α : Type} (body : Js σ α) (handler : JsError → Js σ α) : Js σ α :=
  fun u =>
    match body u with
    | (.ok a, u1) => (.ok a, u1)
    | (.error e, u1) => handler e u1

/-- `try { body } finally { cleanup }` -/
def Js.tryFinally {σ α : Type} (body : Js σ α) (cleanup : Js σ Unit) : Js σ α :=
  fun u =>
    match body u with
    | (r, u1) =>
      match cleanup u1 with
      | (.ok _, u2) => (r, u2)
      | (.error e, u2) => (.error e, u2)

/-- `Array.isArray(v) ? v : []` -/
def JVal.asArray : JVal → List JVal
  | .arr xs => xs
  | _ => []

/-- `proyectos.map`: the method exists on arrays only; calling it on any other
JSON value throws a `TypeError`. -/
def mapMethod (v : JVal) : Except JsError (List JVal) :=
  match v with
  | .arr xs => .ok xs
  | .null => .error (typeError "Cannot read properties of null (reading map)")
  | _ => .error (typeError "proyectos.map is not a function")

/-- `xs.map((p) => f i p)` where `i` is the position of `p`, counted from
`i0`. -/
def mapIndexado {β : Type} (f : Nat → JVal → β) (i0 : Nat) : List JVal → List β
  | [] => []
  | p :: ps => f i0 p :: mapIndexado f (i0 + 1) ps

/-- `Promise.all`: the list of values when every promise fulfils, otherwise a
rejection. -/
def promiseAll {α : Type} : List (Except JsError α) → Except JsError (List α)
  | [] => .ok []
  | .error e :: _ => .error e
  | .ok a :: rs =>
    match promiseAll rs with
    | .error e => .error e
    | .ok as => .ok (a :: as)

/-! ### App router -/

/-- `function goCreate()` -/
def App.goCreate {σ : Type} : Js σ Unit :=
  Js.setApp fun a => { a with view := .create }

/-- `function goList()` -/
def App.goList {σ : Type} : Js σ Unit := do
  Js.setApp fun a => { a with proyectoSel := .null }
  Js.setApp fun a => { a with view := .list }

/-- The guarded request of `goProyecto`: the template literal reads `p.id`,
then `jget` runs on the outcome of the fetch. -/
def App.estadoArteLatest (API_BASE : String) (p : JVal) (rEstado : FetchOutcome) :
    Except JsError JVal := do
  let id ← idOf p
  jget (API_BASE ++ "/proyectos/" ++ templ id ++ "/estado_arte/latest") rEstado

/-- `async function goProyecto(p)`; `rEstado` is the outcome of the fetch of
`/proyectos/{id}/estado_arte/latest`. -/
def App.goProyecto {σ : Type} (API_BASE : String) (p : JVal) (rEstado : FetchOutcome) :
    Js σ Unit := do
  let tieneSota : Bool :=
    match App.estadoArteLatest API_BASE p rEstado with
    | .ok _ => true
    | .error _ => false
  Js.setApp fun a => { a with proyectoSel := p }
  Js.setApp fun a => { a with view := if tieneSota then .brechas else .subir }

/-! ### Lista -/

/-- The `sotaModal` state of `Lista`. -/
structure SotaModal where
  isOpen : Bool
  data : Option JVal

/-- State of the `Lista` screen. -/
structure ListaState where
  rows : List JVal
  loading : Bool
  err : Option JsError
  sotaModal : SotaModal

/-- Initial state of `Lista`. -/
def ListaState.init : ListaState :=
  { rows := [], loading := true, err := none, sotaModal := { isOpen := false, data := none } }

/-- Outcomes of the two fetches issued for one project. -/
structure SubFetch where
  articulos : FetchOutcome
  estadoArte : FetchOutcome

/-- `await jget(API_BASE/proyectos/{p.id}/articulos)` inside the first `try`. -/
def Lista.fetchArticulos (API_BASE : String) (p : JVal) (r : FetchOutcome) :
    Except JsError JVal := do
  let id ← idOf p
  jget (API_BASE ++ "/proyectos/" ++ templ id ++ "/articulos") r

/-- `await jget(API_BASE/proyectos/{p.id}/estado_arte/latest)` inside the second
`try`. -/
def Lista.fetchEstadoArte (API_BASE : String) (p : JVal) (r : FetchOutcome) :
    Except JsError JVal := do
  let id ← idOf p
  jget (API_BASE ++ "/proyectos/" ++ templ id ++ "/estado_arte/latest") r

/-- Value of the local `articulos` after the first `try`/`catch` of the
callback: the fetched value, or the initial `[]` when the block threw. -/
def Lista.articulosDe (API_BASE : String) (p : JVal) (r : FetchOutcome) : JVal :=
  match Lista.fetchArticulos API_BASE p r with
  | .ok v => v
  | .error _ => .arr []

/-- Value of the local `estadoArte` after the second `try`/`catch` of the
callback: the fetched value, or the initial `null` when the block threw. -/
def Lista.estadoArteDe (API_BASE : String) (p : JVal) (r : FetchOutcome) : JVal :=
  match Lista.fetchEstadoArte API_BASE p r with
  | .ok v => v
  | .error _ => .null

/-- The object returned by the callback:
`{ ...p, articulos_count: ..., tiene_sota: !!estadoArte }`. -/
def Lista.fila (API_BASE : String) (p : JVal) (sub : SubFetch) : JVal :=
  let articulos := Lista.articulosDe API_BASE p sub.articulos
  let estadoArte := Lista.estadoArteDe API_BASE p sub.estadoArte
  .obj (JObj.set
    (JObj.set (spread p) "articulos_count"
      (.num (if articulos.isArray then (articulos.length : Int) else 0)))
    "tiene_sota" (.bool estadoArte.truthy))

/-- The callback mapped over `proyectos` in `Lista.load`: both requests sit in
their own `try`/`catch`, so the callback always returns its row. -/
def Lista.enriquecer (API_BASE : String) (p : JVal) (sub : SubFetch) : Except JsError JVal :=
  .ok (Lista.fila API_BASE p sub)

/-- Property read `row[k]` on a value that is not `null`; `none` is
`undefined`. -/
def JVal.prop (v : JVal) (k : String) : Option JVal :=
  match v with
  | .obj kvs => JObj.get kvs k
  | _ => none

/-- `async function load()` of `Lista`; `rProyectos` is the outcome of the
fetch of `/proyectos` and `subs i` the outcomes of the two fetches issued for
the project at position `i`. -/
def Lista.load (API_BASE : String) (rProyectos : FetchOutcome) (subs : Nat → SubFetch) :
    Js ListaState Unit := do
  Js.setScreen fun s => { s with loading := true }
  Js.setScreen fun s => { s with err := none }
  Js.tryFinally
    (Js.tryCatch
      (do
        let proyectos ← Js.await (jget (API_BASE ++ "/proyectos") rProyectos)
        let ps ← Js.await (mapMethod proyectos)
        let enr ← Js.await
          (promiseAll (mapIndexado (fun i p => Lista.enriquecer API_BASE p (subs i)) 0 ps))
        Js.setScreen fun s => { s with rows := enr })
      (fun e => do
        Js.setScreen fun s => { s with rows := [] }
        Js.setScreen fun s => { s with err := some e }))
    (Js.setScreen fun s => { s with loading := false })

/-! ### CrearProyecto -/

/-- State of the `CrearProyecto` screen. -/
structure CrearState where
  err : Option JsError

/-- The `onSubmit` handler of the form; `payload` is the object built from the
form fields, `rPost` the outcome of the fetch of `POST /proyectos`, `goBack`
the prop of that name. -/
def CrearProyecto.onSubmit (API_BASE : String) (payload : JVal) (rPost : FetchOutcome)
    (goBack : Js CrearState Unit) : Js CrearState Unit := do
  Js.setScreen fun s => { s with err := none }
  Js.tryCatch
    (do
      let _ ← Js.await (jpost (API_BASE ++ "/proyectos") payload rPost)
      Js.alert "Proyecto creado"
      goBack)
    (fun e2 => Js.setScreen fun s => { s with err := some e2 })

/-! ### SubirArticulos -/

/-- The `overlay` state of `SubirArticulos` (`shown` is the field `show`). -/
structure Overlay where
  shown : Bool
  text : String

/-- State of the `SubirArticulos` screen. -/
structure SubirState where
  arts : List JVal
  busy : Bool
  overlay : Overlay
  err : Option JsError

/-- Initial state of `SubirArticulos`. -/
def SubirState.init : SubirState :=
  { arts := [], busy := false, overlay := { shown := false, text := "Procesando…" },
    err := none }

/-- `async function load()` of `SubirArticulos`; `rArts` is the outcome of the
fetch of `/proyectos/{id}/articulos`. -/
def SubirArticulos.load (API_BASE : String) (proyecto : JVal) (rArts : FetchOutcome) :
    Js SubirState Unit :=
  Js.tryCatch
    (do
      let id ← Js.await (idOf proyecto)
      let data ← Js.await (jget (API_BASE ++ "/proyectos/" ++ templ id ++ "/articulos") rArts)
      Js.setScreen fun s => { s with arts := data.asArray })
    (fun e => do
      Js.setScreen fun s => { s with arts := [] }
      Js.setScreen fun s => { s with err := some e })

/-- `proyecto.n_articulos_objetivo ?? 0` for a target that is an integer or is
absent (`none` stands for `null` and `undefined`). -/
def SubirArticulos.objetivo (n_articulos_objetivo : Option Int) : Int :=
  match n_articulos_objetivo with
  | some n => n
  | none => 0

/-- `Math.max(0, objetivo - arts.length)` -/
def SubirArticulos.faltantes (objetivo : Int) (arts : List JVal) : Int :=
  max 0 (objetivo - (arts.length : Int))

/-- A `RangeError` raised by the runtime. -/
def rangeError (message : String) : JsError :=
  { name := "RangeError", message := message, detail := none }

/-- `Array.from({ length: n }).map(() => null)` for an integer `n`: `n` entries
`null` (none for a negative `n`); from `n = 2^32` on, `n` is not an array
length and `Array.from` throws a `RangeError`. -/
def arrayFromLength (n : Int) : Except JsError (List JVal) :=
  if 4294967296 ≤ n then .error (rangeError "Invalid array length")
  else .ok ((List.replicate n.toNat ()).map fun _ => JVal.null)

/-- `[...arts, ...Array.from({ length: faltantes }).map(() => null)]` -/
def SubirArticulos.filas (objetivo : Int) (arts : List JVal) : Except JsError (List JVal) := do
  let pendientes ← arrayFromLength (SubirArticulos.faltantes objetivo arts)
  pure (arts ++ pendientes)

/-- `arts.length >= objetivo && arts.length > 0` -/
def SubirArticulos.puedeAnalizar (objetivo : Int) (arts : List JVal) : Bool :=
  decide ((arts.length : Int) ≥ objetivo) && decide (arts.length > 0)

/-- `async function subirPDF(file)`; `rUpload` is the outcome of the fetch of
`POST /proyectos/{id}/archivos`, `rArts` the outcome of the fetch issued by the
`load()` that follows a successful upload. -/
def SubirArticulos.subirPDF (API_BASE : String) (proyecto : JVal) (rUpload rArts : FetchOutcome) :
    Js SubirState Unit := do
  Js.setScreen fun s => { s with err := none }
  Js.tryFinally
    (Js.tryCatch
      (do
        Js.setScreen fun s => { s with busy := true }
        let _ ← Js.await (idOf proyecto)
        let r ← Js.await rUpload
        if !r.ok then
          let detail ← Js.await (detailViaJson r)
          Js.throw { mkError ("POST /archivos → " ++ toString r.status) with detail := some detail }
        SubirArticulos.load API_BASE proyecto rArts)
      (fun e => Js.setScreen fun s => { s with err := some e }))
    (Js.setScreen fun s => { s with busy := false })

/-- `async function analizarTodo()`; `rPost` is the outcome of the fetch of
`POST /proyectos/{id}/analizar_todo`, `goBack` the prop of that name. -/
def SubirArticulos.analizarTodo (API_BASE : String) (proyecto : JVal) (rPost : FetchOutcome)
    (goBack : Js SubirState Unit) : Js SubirState Unit := do
  Js.setScreen fun s => { s with err := none }
  Js.tryFinally
    (Js.tryCatch
      (do
        Js.setScreen fun s =>
          { s with overlay := { shown := true, text := "Ejecutando análisis de artículos…" } }
        Js.setScreen fun s => { s with busy := true }
        let id ← Js.await (idOf proyecto)
        let _ ← Js.await
          (jpost (API_BASE ++ "/proyectos/" ++ templ id ++ "/analizar_todo") (.obj []) rPost)
        Js.setScreen fun s =>
          { s with overlay := { shown := true, text := "Listo. Generando estado del arte…" } }
        Js.alert "Análisis completado"
        goBack)
      (fun e => Js.setScreen fun s => { s with err := some e }))
    (do
      Js.setScreen fun s => { s with busy := false }
      Js.setScreen fun s => { s with overlay := { shown := false, text := "Procesando…" } })

/-- `async function downloadFile(url, filename)`, given the outcome of
`fetch(url)`. -/
def downloadFile {σ : Type} (url filename : String) (fetched : FetchOutcome) : Js σ Unit := do
  let r ← Js.await fetched
  if !r.ok then
    let detail ← Js.await (detailViaJson r)
    Js.throw { mkError ("DOWNLOAD " ++ url ++ " → " ++ toString r.status) with detail := some detail }
  Js.guardar filename

/-! ### BrechasProyecto -/

/-- The `modal` state of `BrechasProyecto` (`payload` is `null` when closed). -/
structure DetalleModal where
  isOpen : Bool
  title : JVal
  payload : JVal

/-- The `mx` state of `BrechasProyecto`. -/
structure MatrizModal where
  isOpen : Bool
  rows : List JVal
  loading : Bool

/-- State of the `BrechasProyecto` screen. -/
structure BrechasState where
  arts : List JVal
  metrics : JVal
  modal : DetalleModal
  err : Option JsError
  mx : MatrizModal

/-- Initial state of `BrechasProyecto`. -/
def BrechasState.init : BrechasState :=
  { arts := [], metrics := .null,
    modal := { isOpen := false, title := .str "", payload := .null },
    err := none, mx := { isOpen := false, rows := [], loading := false } }

/-- `rows?.[0]`: `undefined` (`none`) on `null` and on an empty array. -/
def JVal.primero (rows : JVal) : Option JVal :=
  match rows with
  | .arr xs => xs.head?
  | .obj kvs => JObj.get kvs "0"
  | .str s => s.toList.head?.map fun c => JVal.str (String.singleton c)
  | _ => none

/-- `art.titulo || "Brecha"` for an `art` that is not `null`. -/
def BrechasProyecto.titulo (art : JVal) : JVal :=
  match art.prop "titulo" with
  | some t => if t.truthy then t else .str "Brecha"
  | none => .str "Brecha"

/-- `async function verBrechas(art)`; `rBrechas` is the outcome of the fetch of
`/articulos/{id}/brechas`.  The test `!r` holds when `r` is `undefined` (the
first branch of the `match`) or falsy. -/
def BrechasProyecto.verBrechas (API_BASE : String) (art : JVal) (rBrechas : FetchOutcome) :
    Js BrechasState Unit :=
  Js.tryCatch
    (do
      let id ← Js.await (idOf art)
      let rows ← Js.await (jget (API_BASE ++ "/articulos/" ++ templ id ++ "/brechas") rBrechas)
      match rows.primero with
      | none => Js.alert "Sin brechas"
      | some r =>
        if !r.truthy then Js.alert "Sin brechas"
        else
          Js.setScreen fun s =>
            { s with modal :=
              { isOpen := true, title := BrechasProyecto.titulo art, payload := r } })
    (fun e => Js.setScreen fun s => { s with err := some e })

/-- The `onClick` of the button "Descargar métricas (ZIP)"; `rPlots` is the
outcome of the fetch of `/proyectos/{id}/metrics/plots`. -/
def BrechasProyecto.onClickMetricas (API_BASE : String) (proyecto : JVal)
    (rPlots : FetchOutcome) : Js BrechasState Unit := do
  let id ← Js.await (idOf proyecto)
  Js.tryCatch
    (downloadFile (API_BASE ++ "/proyectos/" ++ templ id ++ "/metrics/plots")
      ("metricas_" ++ templ id ++ ".zip") rPlots)
    (fun _ => Js.alert "No se pudo descargar métricas")

/-- The `onClick` of the button "Dashboard (PDF)"; `rPdf` is the outcome of
the fetch of `/export/proyectos/{id}/dashboard.pdf`. -/
def BrechasProyecto.onClickDashboard (API_BASE : String) (proyecto : JVal)
    (rPdf : FetchOutcome) : Js BrechasState Unit :=
  Js.tryCatch
    (do
      let id ← Js.await (idOf proyecto)
      downloadFile (API_BASE ++ "/export/proyectos/" ++ templ id ++ "/dashboard.pdf")
        ("dashboard_" ++ templ id ++ ".pdf") rPdf)
    (fun e => do
      Js.consoleError e
      Js.setScreen fun s => { s with err := some e })

/-- The `onClick` of the button "Descargar (PDF)" of the matrix modal; `rPdf`
is the outcome of the fetch of `/export/proyectos/{id}/matriz.pdf`. -/
def BrechasProyecto.onClickMatrizPDF (API_BASE : String) (proyecto : JVal)
    (rPdf : FetchOutcome) : Js BrechasState Unit :=
  Js.tryCatch
    (do
      let id ← Js.await (idOf proyecto)
      downloadFile (API_BASE ++ "/export/proyectos/" ++ templ id ++ "/matriz.pdf")
        ("matriz_" ++ templ id ++ ".pdf") rPdf)
    (fun e => Js.consoleError e)

/-! ### Routing -/

/-- The component chosen for `content` by `App`. -/
inductive Pantalla where
  | WelcomeScreen
  | CrearProyecto
  | SubirArticulos (proyecto : JVal)
  | BrechasProyecto (proyecto : JVal)
  | Lista

/-- The `if`/`else if` chain that assigns `content` in `App`. -/
def App.content (s : AppState) : Pantalla :=
  if s.view = .welcome then .WelcomeScreen
  else if s.view = .create then .CrearProyecto
  else if s.view = .subir && s.proyectoSel.truthy then .SubirArticulos s.proyectoSel
  else if s.view = .brechas && s.proyectoSel.truthy then .BrechasProyecto s.proyectoSel
  else .Lista

/-- The navigation callbacks that `App` hands to its screens; `goProyecto` is
called with a project (an object, with fields `campos`) and completes with the
outcome `rEstado` of its guarded request. -/
inductive App.Evento where
  | goCreate
  | goList
  | goProyecto (campos : JObj) (rEstado : FetchOutcome)

/-- The router state after one navigation callback has run to completion. -/
def App.paso (API_BASE : String) (s : AppState) (ev : App.Evento) : AppState :=
  let u : Ui Unit := { app := s, screen := (), alerts := [], consola := [] }
  match ev with
  | .goCreate => (App.goCreate u).2.app
  | .goList => (App.goList u).2.app
  | .goProyecto campos rEstado => (App.goProyecto API_BASE (.obj campos) rEstado u).2.app

/-- The router state after a sequence of navigation callbacks, from the initial
state of `App`. -/
def App.ejecutar (API_BASE : String) (evs : List App.Evento) : AppState :=
  evs.foldl (App.paso API_BASE) AppState.init

/-- The routing invariant: a view `subir` or `brechas` comes with a truthy
`proyectoSel`. -/
def App.Seleccionado (s : AppState) : Prop :=
  (s.view = .subir ∨ s.view = .brechas) → s.proyectoSel.truthy = true

/-! ### Sample data -/

/-- The default `API_BASE`. -/
def Ejemplo.base : String := "http://127.0.0.1:8000"

/-- A project as listed by the backend. -/
def Ejemplo.proyecto (n : Int) : JVal :=
  .obj [("id", .num n), ("tema_principal", .str "Tema"), ("n_articulos_objetivo", .num 5)]

/-- Five projects. -/
def Ejemplo.cinco : List JVal :=
  [Ejemplo.proyecto 1, Ejemplo.proyecto 2, Ejemplo.proyecto 3, Ejemplo.proyecto 4,
    Ejemplo.proyecto 5]

/-- A `200` response whose body is the serialisation `text` of the value `j`. -/
def Ejemplo.exito (text : String) (j : JVal) : FetchOutcome :=
  .ok { status := 200, text := text, json := some j }

/-- Body text of the response listing the five projects. -/
def Ejemplo.textoCinco : String :=
  "[" ++ "\x7b\"id\": 1, \"tema_principal\": \"Tema\", \"n_articulos_objetivo\": 5\x7d, " ++
    "\x7b\"id\": 2, \"tema_principal\": \"Tema\", \"n_articulos_objetivo\": 5\x7d, " ++
    "\x7b\"id\": 3, \"tema_principal\": \"Tema\", \"n_articulos_objetivo\": 5\x7d, " ++
    "\x7b\"id\": 4, \"tema_principal\": \"Tema\", \"n_articulos_objetivo\": 5\x7d, " ++
    "\x7b\"id\": 5, \"tema_principal\": \"Tema\", \"n_articulos_objetivo\": 5\x7d" ++ "]"

/-- A `200` response listing the five projects. -/
def Ejemplo.listaCinco : FetchOutcome :=
  Ejemplo.exito Ejemplo.textoCinco (.arr Ejemplo.cinco)

/-- A `200` response whose body is the empty object. -/
def Ejemplo.objetoVacio : FetchOutcome := Ejemplo.exito "\x7b\x7d" (.obj [])

/-- A `200` response with two articles. -/
def Ejemplo.dosArticulos : FetchOutcome :=
  Ejemplo.exito "[\x7b\"id\": 10\x7d, \x7b\"id\": 11\x7d]"
    (.arr [.obj [("id", .num 10)], .obj [("id", .num 11)]])

/-- A `200` response carrying an analysis result. -/
def Ejemplo.conEstadoArte : FetchOutcome :=
  Ejemplo.exito "\x7b\"version\": 1, \"texto\": \"...\"\x7d"
    (.obj [("version", .num 1), ("texto", .str "...")])

/-- The `404` response of the backend, with its JSON error body. -/
def Ejemplo.resp404 : Response :=
  { status := 404, text := "\x7b\"detail\": \"Not Found\"\x7d",
    json := some (.obj [("detail", .str "Not Found")]) }

/-- A `fetch` answered with the `404` response. -/
def Ejemplo.noEncontrado : FetchOutcome := .ok Ejemplo.resp404

/-- A `500` response with a JSON error body. -/
def Ejemplo.falloServidor : FetchOutcome :=
  .ok { status := 500, text := "\x7b\"detail\": \"Internal Server Error\"\x7d",
        json := some (.obj [("detail", .str "Internal Server Error")]) }

/-- A rejected `fetch` (the backend is unreachable). -/
def Ejemplo.sinRed : FetchOutcome := .error (typeError "Failed to fetch")

/-- Every sub-fetch succeeds, except the articles of the project at position 2. -/
def Ejemplo.subsUnFallo (i : Nat) : SubFetch :=
  { articulos := if i = 2 then Ejemplo.falloServidor else Ejemplo.dosArticulos,
    estadoArte := Ejemplo.conEstadoArte }

/-- A freshly mounted `Lista` under the router state `list`. -/
def Ejemplo.uiLista : Ui ListaState :=
  { app := { view := .list, proyectoSel := .null }, screen := ListaState.init,
    alerts := [], consola := [] }

/-- The object built from a filled create-project form. -/
def Ejemplo.payload : JVal :=
  .obj [("tema_principal", .str "X"), ("metodologia_txt", .str ""), ("sector_txt", .str ""),
    ("objetivo", .str ""), ("n_articulos_objetivo", .num 5)]

/-- The mounted `CrearProyecto` under the router state `create`. -/
def Ejemplo.uiCrear : Ui CrearState :=
  { app := { view := .create, proyectoSel := .null }, screen := { err := none },
    alerts := [], consola := [] }

/-- Two uploaded articles. -/
def Ejemplo.dosArts : List JVal := [.obj [("id", .num 10)], .obj [("id", .num 11)]]

/-- Five uploaded articles. -/
def Ejemplo.cincoArts : List JVal :=
  [.obj [("id", .num 10)], .obj [("id", .num 11)], .obj [("id", .num 12)],
    .obj [("id", .num 13)], .obj [("id", .num 14)]]

/-- The mounted `SubirArticulos` of the first sample project, with five
articles loaded. -/
def Ejemplo.uiSubir : Ui SubirState :=
  { app := { view := .subir, proyectoSel := Ejemplo.proyecto 1 },
    screen := { SubirState.init with arts := Ejemplo.cincoArts },
    alerts := [], consola := [] }

/-- The fields of a project as listed by the backend. -/
def Ejemplo.camposProyecto : JObj :=
  [("id", .num 1), ("tema_principal", .str "Tema"), ("n_articulos_objetivo", .num 5)]

/-- A `200` response to an upload. -/
def Ejemplo.subido : FetchOutcome :=
  Ejemplo.exito "\x7b\"id\": 15\x7d" (.obj [("id", .num 15)])

/-- The response with status `500` and a plain-text body. -/
def Ejemplo.resp500Texto : Response :=
  { status := 500, text := "Internal Server Error", json := none }

/-- The response with status `200` and an empty body. -/
def Ejemplo.resp200Vacio : Response :=
  { status := 200, text := "", json := none }

/-- A gap record. -/
def Ejemplo.brecha (tipo : String) : JVal :=
  .obj [("tipo_brecha", .str tipo), ("brecha", .str "..."), ("oportunidad", .str "...")]

/-- A `200` response with two gap records. -/
def Ejemplo.dosBrechas : FetchOutcome :=
  Ejemplo.exito
    ("[\x7b\"tipo_brecha\": \"metodologica\", \"brecha\": \"...\", \"oportunidad\": \"...\"\x7d, " ++
      "\x7b\"tipo_brecha\": \"teorica\", \"brecha\": \"...\", \"oportunidad\": \"...\"\x7d]")
    (.arr [Ejemplo.brecha "metodologica", Ejemplo.brecha "teorica"])

/-- A `200` response with the empty list. -/
def Ejemplo.listaVacia : FetchOutcome := Ejemplo.exito "[]" (.arr [])

/-- An article of the first sample project. -/
def Ejemplo.articulo : JVal :=
  .obj [("id", .num 10), ("titulo", .str "Un estudio"), ("doi", .str "10.1000/x")]

/-- The mounted `BrechasProyecto` of the first sample project. -/
def Ejemplo.uiBrechas : Ui BrechasState :=
  { app := { view := .brechas, proyectoSel := Ejemplo.proyecto 1 },
    screen := { BrechasState.init with arts := [Ejemplo.articulo] },
    alerts := [], consola := [] }

/-! ## Evaluation lemmas for the state transformers -/

section Evaluation

variable {σ α β : Type}

@[simp] theorem Js.pure_run (a : α) (u : Ui σ) : (pure a : Js σ α) u = (.ok a, u) := rfl

@[simp] theorem Js.bind_run (m : Js σ α) (f : α → Js σ β) (u : Ui σ) :
    (m >>= f) u =
      (match m u with
      | (.ok a, u1) => f a u1
      | (.error e, u1) => (.error e, u1)) := rfl

@[simp] theorem Js.throw_run (e : JsError) (u : Ui σ) :
    (Js.throw e : Js σ α) u = (.error e, u) := rfl

@[simp] theorem Js.await_run (r : Except JsError α) (u : Ui σ) :
    (Js.await r : Js σ α) u = (r, u) := rfl

@[simp] theorem Js.setScreen_run (f : σ → σ) (u : Ui σ) :
    Js.setScreen f u = (.ok (), { u with screen := f u.screen }) := rfl

@[simp] theorem Js.setApp_run (f : AppState → AppState) (u : Ui σ) :
    (Js.setApp f : Js σ Unit) u = (.ok (), { u with app := f u.app }) := rfl

@[simp] theorem Js.alert_run (text : String) (u : Ui σ) :
    (Js.alert text : Js σ Unit) u = (.ok (), { u with alerts := u.alerts ++ [text] }) := rfl

@[simp] theorem Js.tryCatch_run (body : Js σ α) (handler : JsError → Js σ α) (u : Ui σ) :
    Js.tryCatch body handler u =
      (match body u with
      | (.ok a, u1) => (.ok a, u1)
      | (.error e, u1) => handler e u1) := rfl

@[simp] theorem Js.tryFinally_run (body : Js σ α) (cleanup : Js σ Unit) (u : Ui σ) :
    Js.tryFinally body cleanup u =
      (match body u with
      | (r, u1) =>
        match cleanup u1 with
        | (.ok _, u2) => (r, u2)
        | (.error e, u2) => (.error e, u2)) := rfl

/-- A `try`/`catch`/`finally` whose handler and cleanup only write screen
state ends normally, in a state written last by the cleanup. -/
theorem Js.tryFinally_tryCatch_ok (body : Js σ Unit) (g : JsError → σ → σ)
    (cleanup : Js σ Unit) (f : σ → σ)
    (hc : ∀ u, cleanup u = (.ok (), { u with screen := f u.screen })) (u : Ui σ) :
    ∃ u1 : Ui σ, Js.tryFinally (Js.tryCatch body (fun e => Js.setScreen (g e))) cleanup u =
      (.ok (), { u1 with screen := f u1.screen }) := by
  simp only [Js.tryFinally_run, Js.tryCatch_run, Js.setScreen_run, hc]
  rcases hb : body u with ⟨r, u1⟩
  cases r with
  | error e => exact ⟨_, rfl⟩
  | ok a => exact ⟨_, rfl⟩

@[simp] theorem App.goList_run (u : Ui σ) :
    (App.goList : Js σ Unit) u =
      (.ok (), { u with app := { view := .list, proyectoSel := .null } }) := rfl

end Evaluation

/-! ## Objects, lists and promises -/

theorem JObj.get_set_self (o : JObj) (k : String) (v : JVal) :
    JObj.get (JObj.set o k v) k = some v := by
  induction o with
  | nil => simp [JObj.set, JObj.get]
  | cons hd tl ih =>
    obtain ⟨k1, v1⟩ := hd
    by_cases h : k1 = k
    · simp [JObj.set, JObj.get, h]
    · simp [JObj.set, JObj.get, h, ih]

theorem JObj.get_set_ne (o : JObj) (k k2 : String) (v : JVal) (hne : k2 ≠ k) :
    JObj.get (JObj.set o k v) k2 = JObj.get o k2 := by
  induction o with
  | nil => simp [JObj.set, JObj.get, Ne.symm hne]
  | cons hd tl ih =>
    obtain ⟨k1, v1⟩ := hd
    by_cases h : k1 = k
    · subst h
      simp [JObj.set, JObj.get, Ne.symm hne]
    · by_cases h2 : k1 = k2
      · subst h2
        simp [JObj.set, JObj.get, h]
      · simp [JObj.set, JObj.get, h, h2, ih]

theorem mapIndexado_length {β : Type} (f : Nat → JVal → β) (i0 : Nat) (ps : List JVal) :
    (mapIndexado f i0 ps).length = ps.length := by
  induction ps generalizing i0 with
  | nil => rfl
  | cons p ps ih => simp [mapIndexado, ih]

theorem mapIndexado_getElem? {β : Type} (f : Nat → JVal → β) (i0 : Nat) (ps : List JVal)
    (i : Nat) : (mapIndexado f i0 ps)[i]? = (ps[i]?).map (f (i0 + i)) := by
  induction ps generalizing i0 i with
  | nil => simp [mapIndexado]
  | cons p ps ih =>
    cases i with
    | zero => simp [mapIndexado]
    | succ j =>
      have hidx : i0 + 1 + j = i0 + (j + 1) := by omega
      simp only [mapIndexado, List.getElem?_cons_succ, ih, hidx]

theorem promiseAll_ok {α : Type} (g : Nat → JVal → α) (i0 : Nat) (ps : List JVal) :
    promiseAll (mapIndexado (fun i p => (Except.ok (g i p) : Except JsError α)) i0 ps) =
      .ok (mapIndexado g i0 ps) := by
  induction ps generalizing i0 with
  | nil => rfl
  | cons p ps ih => simp [mapIndexado, promiseAll, ih]

/-! ## Lista.load, evaluated -/

/-- The rows computed by `Lista.load` from the array `ps`. -/
theorem Lista.load_of_array (API_BASE : String) (rProyectos : FetchOutcome)
    (subs : Nat → SubFetch) (u : Ui ListaState) (ps : List JVal)
    (h : jget (API_BASE ++ "/proyectos") rProyectos = .ok (.arr ps)) :
    Lista.load API_BASE rProyectos subs u =
      (.ok (), { u with screen :=
        { rows := mapIndexado (fun i p => Lista.fila API_BASE p (subs i)) 0 ps,
          loading := false, err := none, sotaModal := u.screen.sotaModal } }) := by
  have hall := promiseAll_ok (fun i p => Lista.fila API_BASE p (subs i)) 0 ps
  simp only [Lista.load, Lista.enriquecer, Js.bind_run, Js.setScreen_run, Js.tryFinally_run,
    Js.tryCatch_run, Js.await_run, h, mapMethod, hall]

/-- `Lista.load` when the block of its `try` throws `e` before `setRows`. -/
theorem Lista.load_of_error (API_BASE : String) (rProyectos : FetchOutcome)
    (subs : Nat → SubFetch) (u : Ui ListaState) (e : JsError)
    (h : (jget (API_BASE ++ "/proyectos") rProyectos >>= mapMethod) = .error e) :
    Lista.load API_BASE rProyectos subs u =
      (.ok (), { u with screen :=
        { rows := [], loading := false, err := some e, sotaModal := u.screen.sotaModal } }) := by
  cases hj : jget (API_BASE ++ "/proyectos") rProyectos with
  | error e1 =>
    rw [hj] at h
    cases h
    simp only [Lista.load, Js.bind_run, Js.setScreen_run, Js.tryFinally_run,
      Js.tryCatch_run, Js.await_run, hj]
  | ok v =>
    rw [hj] at h
    have hm : mapMethod v = .error e := h
    simp only [Lista.load, Js.bind_run, Js.setScreen_run, Js.tryFinally_run,
      Js.tryCatch_run, Js.await_run, hj, hm]

theorem Lista.fila_prop_other (API_BASE : String) (p : JVal) (sub : SubFetch) (k : String)
    (h1 : k ≠ "articulos_count") (h2 : k ≠ "tiene_sota") :
    (Lista.fila API_BASE p sub).prop k = JObj.get (spread p) k := by
  simp only [Lista.fila, JVal.prop]
  rw [JObj.get_set_ne _ _ _ _ h2, JObj.get_set_ne _ _ _ _ h1]

theorem Lista.fila_articulos_count (API_BASE : String) (p : JVal) (sub : SubFetch) :
    (Lista.fila API_BASE p sub).prop "articulos_count" =
      some (.num (if (Lista.articulosDe API_BASE p sub.articulos).isArray then
        ((Lista.articulosDe API_BASE p sub.articulos).length : Int) else 0)) := by
  simp only [Lista.fila, JVal.prop]
  rw [JObj.get_set_ne _ _ _ _ (by decide), JObj.get_set_self]

theorem Lista.fila_tiene_sota (API_BASE : String) (p : JVal) (sub : SubFetch) :
    (Lista.fila API_BASE p sub).prop "tiene_sota" =
      some (.bool (Lista.estadoArteDe API_BASE p sub.estadoArte).truthy) := by
  simp only [Lista.fila, JVal.prop]
  rw [JObj.get_set_self]

/-! ## Project summary aggregation -/

/-- C3: when `GET /proyectos` yields a list, then for every outcome of the
per-project fetches `Lista.load` ends normally with exactly one row per
element, row `i` being the row built from element `i`; for a project (an
object) the row carries the project's own fields, its `id` in particular. -/
theorem Lista.load_one_row_per_project (API_BASE : String) (rProyectos : FetchOutcome)
    (subs : Nat → SubFetch) (u : Ui ListaState) (ps : List JVal)
    (h : jget (API_BASE ++ "/proyectos") rProyectos = .ok (.arr ps)) :
    (Lista.load API_BASE rProyectos subs u).1 = .ok () ∧
    (Lista.load API_BASE rProyectos subs u).2.screen.rows.length = ps.length ∧
    ∀ (i : Nat) (kvs : JObj), ps[i]? = some (.obj kvs) →
      ∃ row, (Lista.load API_BASE rProyectos subs u).2.screen.rows[i]? = some row ∧
        row = Lista.fila API_BASE (.obj kvs) (subs i) ∧
        row.prop "id" = JObj.get kvs "id" ∧
        ∀ k, k ≠ "articulos_count" → k ≠ "tiene_sota" → row.prop k = JObj.get kvs k := by
  rw [Lista.load_of_array API_BASE rProyectos subs u ps h]
  refine ⟨rfl, mapIndexado_length _ _ _, ?_⟩
  intro i kvs hi
  refine ⟨Lista.fila API_BASE (.obj kvs) (subs i), ?_, rfl, ?_, ?_⟩
  · simp only [mapIndexado_getElem?, hi, Option.map_some', Nat.zero_add]
  · exact Lista.fila_prop_other API_BASE _ _ "id" (by decide) (by decide)
  · intro k h1 h2
    exact Lista.fila_prop_other API_BASE _ _ k h1 h2

/-- C3 at the five sample projects: five rows, the fourth with the fourth
project's `id`. -/
theorem Lista.load_one_row_per_project_witness :
    jget (Ejemplo.base ++ "/proyectos") Ejemplo.listaCinco = .ok (.arr Ejemplo.cinco) ∧
    (Lista.load Ejemplo.base Ejemplo.listaCinco Ejemplo.subsUnFallo
      Ejemplo.uiLista).2.screen.rows.length = 5 ∧
    ∃ row, (Lista.load Ejemplo.base Ejemplo.listaCinco Ejemplo.subsUnFallo
      Ejemplo.uiLista).2.screen.rows[3]? = some row ∧ row.prop "id" = some (.num 4) := by
  have h : jget (Ejemplo.base ++ "/proyectos") Ejemplo.listaCinco = .ok (.arr Ejemplo.cinco) := rfl
  have key := Lista.load_one_row_per_project Ejemplo.base Ejemplo.listaCinco
    Ejemplo.subsUnFallo Ejemplo.uiLista Ejemplo.cinco h
  refine ⟨h, key.2.1, ?_⟩
  obtain ⟨row, hrow, _, hid, _⟩ := key.2.2 3 _ rfl
  exact ⟨row, hrow, hid⟩

/-- C4: when the articles request of the project at position `k` fails, that
row has `articulos_count = 0`, every other row is the row it is under any
other outcome of the requests of project `k` (a successful one in particular),
the call ends normally, the error holder is empty and there is one row per
project. -/
theorem Lista.load_articulos_failure_isolated (API_BASE : String) (rProyectos : FetchOutcome)
    (subs : Nat → SubFetch) (u : Ui ListaState) (ps : List JVal) (k : Nat) (p : JVal)
    (e : JsError)
    (h : jget (API_BASE ++ "/proyectos") rProyectos = .ok (.arr ps))
    (hk : ps[k]? = some p)
    (hfail : Lista.fetchArticulos API_BASE p (subs k).articulos = .error e) :
    (Lista.load API_BASE rProyectos subs u).1 = .ok () ∧
    (Lista.load API_BASE rProyectos subs u).2.screen.err = none ∧
    (Lista.load API_BASE rProyectos subs u).2.screen.rows.length = ps.length ∧
    (∃ row, (Lista.load API_BASE rProyectos subs u).2.screen.rows[k]? = some row ∧
      row.prop "articulos_count" = some (.num 0)) ∧
    ∀ subs2 : Nat → SubFetch, (∀ i, i ≠ k → subs2 i = subs i) →
      ∀ i, i ≠ k →
        (Lista.load API_BASE rProyectos subs2 u).2.screen.rows[i]? =
          (Lista.load API_BASE rProyectos subs u).2.screen.rows[i]? := by
  rw [Lista.load_of_array API_BASE rProyectos subs u ps h]
  refine ⟨rfl, rfl, mapIndexado_length _ _ _, ?_, ?_⟩
  · refine ⟨Lista.fila API_BASE p (subs k), ?_, ?_⟩
    · simp only [mapIndexado_getElem?, hk, Option.map_some', Nat.zero_add]
    · rw [Lista.fila_articulos_count]
      simp [Lista.articulosDe, hfail, JVal.isArray, JVal.length]
  · intro subs2 hsame i hi
    rw [Lista.load_of_array API_BASE rProyectos subs2 u ps h]
    simp only [mapIndexado_getElem?, Nat.zero_add, hsame i hi]

/-- C4 at five projects where the articles request of the third one is
answered with a `500`: five rows, the third with `articulos_count = 0`, no
error. -/
theorem Lista.load_articulos_failure_isolated_witness :
    (jget (Ejemplo.base ++ "/proyectos") Ejemplo.listaCinco = .ok (.arr Ejemplo.cinco) ∧
      Ejemplo.cinco[2]? = some (Ejemplo.proyecto 3) ∧
      ∃ e, Lista.fetchArticulos Ejemplo.base (Ejemplo.proyecto 3)
        (Ejemplo.subsUnFallo 2).articulos = .error e) ∧
    (Lista.load Ejemplo.base Ejemplo.listaCinco Ejemplo.subsUnFallo Ejemplo.uiLista).1 = .ok () ∧
    (Lista.load Ejemplo.base Ejemplo.listaCinco Ejemplo.subsUnFallo
      Ejemplo.uiLista).2.screen.err = none ∧
    (Lista.load Ejemplo.base Ejemplo.listaCinco Ejemplo.subsUnFallo
      Ejemplo.uiLista).2.screen.rows.length = 5 ∧
    (Lista.load Ejemplo.base Ejemplo.listaCinco Ejemplo.subsUnFallo
      Ejemplo.uiLista).2.screen.rows.map (fun row => row.prop "articulos_count") =
        [some (.num 2), some (.num 2), some (.num 0), some (.num 2), some (.num 2)] := by
  have h : jget (Ejemplo.base ++ "/proyectos") Ejemplo.listaCinco = .ok (.arr Ejemplo.cinco) := rfl
  have hk : Ejemplo.cinco[2]? = some (Ejemplo.proyecto 3) := rfl
  have hfail : Lista.fetchArticulos Ejemplo.base (Ejemplo.proyecto 3)
      (Ejemplo.subsUnFallo 2).articulos = .error _ := rfl
  have key := Lista.load_articulos_failure_isolated Ejemplo.base Ejemplo.listaCinco
    Ejemplo.subsUnFallo Ejemplo.uiLista Ejemplo.cinco 2 (Ejemplo.proyecto 3) _ h hk hfail
  exact ⟨⟨h, hk, _, hfail⟩, key.1, key.2.1, key.2.2.1, rfl⟩

/-- C5: in every row of `Lista.load`, `tiene_sota` is false whenever the
request for the latest analysis result fails, it can be true only when that
request succeeded, and it is true whenever the request succeeds with an
analysis result (an object); hence, when a success of this request carries an
analysis result, as the endpoint specifies, `tiene_sota` is true exactly when
the request succeeds. -/
theorem Lista.load_tiene_sota_iff (API_BASE : String) (rProyectos : FetchOutcome)
    (subs : Nat → SubFetch) (u : Ui ListaState) (ps : List JVal) (i : Nat) (p : JVal)
    (h : jget (API_BASE ++ "/proyectos") rProyectos = .ok (.arr ps))
    (hi : ps[i]? = some p) :
    ∃ row b, (Lista.load API_BASE rProyectos subs u).2.screen.rows[i]? = some row ∧
      row.prop "tiene_sota" = some (.bool b) ∧
      (∀ e, Lista.fetchEstadoArte API_BASE p (subs i).estadoArte = .error e → b = false) ∧
      (b = true → ∃ v, Lista.fetchEstadoArte API_BASE p (subs i).estadoArte = .ok v) ∧
      (∀ campos, Lista.fetchEstadoArte API_BASE p (subs i).estadoArte = .ok (.obj campos) →
        b = true) ∧
      ((∀ v, Lista.fetchEstadoArte API_BASE p (subs i).estadoArte = .ok v →
          ∃ campos, v = .obj campos) →
        (b = true ↔ ∃ v, Lista.fetchEstadoArte API_BASE p (subs i).estadoArte = .ok v)) := by
  rw [Lista.load_of_array API_BASE rProyectos subs u ps h]
  refine ⟨Lista.fila API_BASE p (subs i),
    (Lista.estadoArteDe API_BASE p (subs i).estadoArte).truthy, ?_,
    Lista.fila_tiene_sota _ _ _, ?_, ?_, ?_, ?_⟩
  · simp only [mapIndexado_getElem?, hi, Option.map_some', Nat.zero_add]
  · intro e hf
    simp [Lista.estadoArteDe, hf, JVal.truthy]
  · intro hb
    cases hf : Lista.fetchEstadoArte API_BASE p (subs i).estadoArte with
    | error e => simp [Lista.estadoArteDe, hf, JVal.truthy] at hb
    | ok v => exact ⟨v, rfl⟩
  · intro campos hf
    simp [Lista.estadoArteDe, hf, JVal.truthy]
  · intro hobj
    constructor
    · intro hb
      cases hf : Lista.fetchEstadoArte API_BASE p (subs i).estadoArte with
      | error e => simp [Lista.estadoArteDe, hf, JVal.truthy] at hb
      | ok v => exact ⟨v, rfl⟩
    · rintro ⟨v, hv⟩
      obtain ⟨campos, rfl⟩ := hobj v hv
      simp [Lista.estadoArteDe, hv, JVal.truthy]

/-- C5 at the five sample projects, whose analysis results exist: the request
of the third project succeeds with an object and its row has
`tiene_sota = true`. -/
theorem Lista.load_tiene_sota_iff_witness :
    (jget (Ejemplo.base ++ "/proyectos") Ejemplo.listaCinco = .ok (.arr Ejemplo.cinco) ∧
      Ejemplo.cinco[2]? = some (Ejemplo.proyecto 3) ∧
      ∀ v, Lista.fetchEstadoArte Ejemplo.base (Ejemplo.proyecto 3)
        (Ejemplo.subsUnFallo 2).estadoArte = .ok v → ∃ campos, v = .obj campos) ∧
    ∃ row, (Lista.load Ejemplo.base Ejemplo.listaCinco Ejemplo.subsUnFallo
      Ejemplo.uiLista).2.screen.rows[2]? = some row ∧
      row.prop "tiene_sota" = some (.bool true) := by
  have h : jget (Ejemplo.base ++ "/proyectos") Ejemplo.listaCinco = .ok (.arr Ejemplo.cinco) := rfl
  have hk : Ejemplo.cinco[2]? = some (Ejemplo.proyecto 3) := rfl
  have hf : Lista.fetchEstadoArte Ejemplo.base (Ejemplo.proyecto 3)
      (Ejemplo.subsUnFallo 2).estadoArte =
        .ok (.obj [("version", .num 1), ("texto", .str "...")]) := rfl
  have hobj : ∀ v, Lista.fetchEstadoArte Ejemplo.base (Ejemplo.proyecto 3)
      (Ejemplo.subsUnFallo 2).estadoArte = .ok v → ∃ campos, v = .obj campos := by
    intro v hv
    rw [hf] at hv
    cases hv
    exact ⟨_, rfl⟩
  obtain ⟨row, b, hrow, hprop, _, _, _, hiff⟩ := Lista.load_tiene_sota_iff Ejemplo.base
    Ejemplo.listaCinco Ejemplo.subsUnFallo Ejemplo.uiLista Ejemplo.cinco 2 (Ejemplo.proyecto 3) h hk
  have hb : b = true := (hiff hobj).2 ⟨_, hf⟩
  exact ⟨⟨h, hk, hobj⟩, row, hrow, by rw [hprop, hb]⟩

/-- C6 at a `GET /proyectos` answered `200` with the empty object as body: the
request itself succeeds, yet `Lista.load` ends with the rows empty and the
`TypeError` of `proyectos.map` in the error holder; on the same body the
guarded `load` of `SubirArticulos` ends with an empty list and no error. -/
theorem Lista.load_error_on_non_array :
    jget (Ejemplo.base ++ "/proyectos") Ejemplo.objetoVacio = .ok (.obj []) ∧
    (Lista.load Ejemplo.base Ejemplo.objetoVacio Ejemplo.subsUnFallo
      Ejemplo.uiLista).2.screen.err = some (typeError "proyectos.map is not a function") ∧
    (Lista.load Ejemplo.base Ejemplo.objetoVacio Ejemplo.subsUnFallo
      Ejemplo.uiLista).2.screen.rows = [] ∧
    (SubirArticulos.load Ejemplo.base (Ejemplo.proyecto 1) Ejemplo.objetoVacio
      Ejemplo.uiSubir).2.screen.err = none ∧
    (SubirArticulos.load Ejemplo.base (Ejemplo.proyecto 1) Ejemplo.objetoVacio
      Ejemplo.uiSubir).2.screen.arts = [] := by
  refine ⟨rfl, rfl, rfl, rfl, rfl⟩

/-- The paths of `Lista.load`: it always ends normally with the loading flag
cleared; when `GET /proyectos` yields a list the error holder is empty,
whatever the sub-fetches do; when the request fails with `e` the rows are
empty and the error holder holds `e`; the only other way to a set error holder
is a successful response that is not a list. -/
theorem Lista.load_paths (API_BASE : String)
    (rProyectos : FetchOutcome) (subs : Nat → SubFetch) (u : Ui ListaState) :
    (Lista.load API_BASE rProyectos subs u).1 = .ok () ∧
    (Lista.load API_BASE rProyectos subs u).2.screen.loading = false ∧
    (∀ ps, jget (API_BASE ++ "/proyectos") rProyectos = .ok (.arr ps) →
      (Lista.load API_BASE rProyectos subs u).2.screen.err = none) ∧
    (∀ e, jget (API_BASE ++ "/proyectos") rProyectos = .error e →
      (Lista.load API_BASE rProyectos subs u).2.screen.rows = [] ∧
      (Lista.load API_BASE rProyectos subs u).2.screen.err = some e) ∧
    ((Lista.load API_BASE rProyectos subs u).2.screen.err ≠ none →
      (∃ e, jget (API_BASE ++ "/proyectos") rProyectos = .error e) ∨
      (∃ v, jget (API_BASE ++ "/proyectos") rProyectos = .ok v ∧ v.isArray = false)) := by
  cases hj : jget (API_BASE ++ "/proyectos") rProyectos with
  | error e =>
    have hb : (jget (API_BASE ++ "/proyectos") rProyectos >>= mapMethod) = .error e := by
      rw [hj]; rfl
    rw [Lista.load_of_error API_BASE rProyectos subs u e hb]
    refine ⟨rfl, rfl, ?_, ?_, ?_⟩
    · intro ps hps
      cases hps
    · intro e2 he2
      cases he2
      exact ⟨rfl, rfl⟩
    · intro _
      exact Or.inl ⟨e, rfl⟩
  | ok v =>
    cases hm : mapMethod v with
    | ok ps =>
      have hv : v = .arr ps := by
        cases v <;> simp [mapMethod] at hm
        rw [hm]
      subst hv
      rw [Lista.load_of_array API_BASE rProyectos subs u ps hj]
      refine ⟨rfl, rfl, ?_, ?_, ?_⟩
      · intro _ _
        rfl
      · intro e2 he2
        cases he2
      · intro hne
        exact absurd rfl hne
    | error e =>
      have hb : (jget (API_BASE ++ "/proyectos") rProyectos >>= mapMethod) = .error e := by
        rw [hj]; exact hm
      rw [Lista.load_of_error API_BASE rProyectos subs u e hb]
      refine ⟨rfl, rfl, ?_, ?_, ?_⟩
      · intro ps hps
        cases hps
        simp [mapMethod] at hm
      · intro e2 he2
        cases he2
      · intro _
        refine Or.inr ⟨v, rfl, ?_⟩
        cases v <;> simp [mapMethod] at hm <;> rfl

/-! ## Upload gate -/

/-- C1: for every target count `T` and article list of length `C` the
pending-slot count `faltantes` is `max(0, T - C)`, it is never negative, it is
`T - C` when the quota is not met and `0` when it is; an absent target counts
as `0`, and then nothing is pending. -/
theorem SubirArticulos.faltantes_eq_max (T : Int) (arts : List JVal) :
    SubirArticulos.faltantes T arts = max 0 (T - (arts.length : Int)) ∧
    0 ≤ SubirArticulos.faltantes T arts ∧
    ((arts.length : Int) ≤ T → SubirArticulos.faltantes T arts = T - arts.length) ∧
    (T ≤ (arts.length : Int) → SubirArticulos.faltantes T arts = 0) ∧
    SubirArticulos.faltantes (SubirArticulos.objetivo (some T)) arts =
      SubirArticulos.faltantes T arts ∧
    SubirArticulos.faltantes (SubirArticulos.objetivo none) arts = 0 := by
  unfold SubirArticulos.faltantes
  refine ⟨rfl, le_max_left _ _, ?_, ?_, rfl, ?_⟩
  · intro h
    exact max_eq_right (by omega)
  · intro h
    exact max_eq_left (by omega)
  · have h0 : SubirArticulos.objetivo none = 0 := rfl
    rw [h0]
    exact max_eq_left (by omega)

/-- C1 at a target of five with two articles uploaded: three slots pending. -/
theorem SubirArticulos.faltantes_eq_max_witness :
    (Ejemplo.dosArts.length : Int) ≤ 5 ∧
    SubirArticulos.faltantes 5 Ejemplo.dosArts = 5 - (Ejemplo.dosArts.length : Int) :=
  ⟨by decide, (SubirArticulos.faltantes_eq_max 5 Ejemplo.dosArts).2.2.1 (by decide)⟩

/-- C2: the analysis-enabled predicate `puedeAnalizar` holds exactly when the
number of articles `C` reaches the target `T` and is positive; it is false for
an empty list whatever the target, and true for `T = 5`, `C = 5`. -/
theorem SubirArticulos.puedeAnalizar_iff (T : Int) (arts : List JVal) :
    (SubirArticulos.puedeAnalizar T arts = true ↔ (arts.length : Int) ≥ T ∧ arts.length > 0) ∧
    SubirArticulos.puedeAnalizar T [] = false ∧
    (arts.length = 5 → SubirArticulos.puedeAnalizar 5 arts = true) := by
  refine ⟨?_, ?_, ?_⟩
  · simp [SubirArticulos.puedeAnalizar]
  · simp [SubirArticulos.puedeAnalizar]
  · intro h
    simp [SubirArticulos.puedeAnalizar, h]

/-- C2 at a target of five with five articles uploaded: analysis is enabled. -/
theorem SubirArticulos.puedeAnalizar_iff_witness :
    Ejemplo.cincoArts.length = 5 ∧ SubirArticulos.puedeAnalizar 5 Ejemplo.cincoArts = true :=
  ⟨rfl, (SubirArticulos.puedeAnalizar_iff 5 Ejemplo.cincoArts).2.2 rfl⟩

/-! ## Router and forms -/

/-- C7: `goProyecto(p)` ends normally, selects `p`, and sets the view to
`brechas` when the request for the latest analysis result of `p` succeeds and
to `subir` when it fails, whatever the failure; the state of the mounted
screen (its error holder included), the dialogs and the console are left as
they were. -/
theorem App.goProyecto_routes {σ : Type} (API_BASE : String) (p : JVal)
    (rEstado : FetchOutcome) (u : Ui σ) :
    (App.goProyecto API_BASE p rEstado u).1 = .ok () ∧
    (App.goProyecto API_BASE p rEstado u).2.app.proyectoSel = p ∧
    (∀ v, App.estadoArteLatest API_BASE p rEstado = .ok v →
      (App.goProyecto API_BASE p rEstado u).2.app.view = .brechas) ∧
    (∀ e, App.estadoArteLatest API_BASE p rEstado = .error e →
      (App.goProyecto API_BASE p rEstado u).2.app.view = .subir) ∧
    (App.goProyecto API_BASE p rEstado u).2.screen = u.screen ∧
    (App.goProyecto API_BASE p rEstado u).2.alerts = u.alerts ∧
    (App.goProyecto API_BASE p rEstado u).2.consola = u.consola := by
  refine ⟨rfl, rfl, ?_, ?_, rfl, rfl, rfl⟩
  · intro v hv
    simp [App.goProyecto, hv]
  · intro e he
    simp [App.goProyecto, he]

/-- C7 at the first sample project: an existing analysis result routes to
`brechas`, a `404` routes to `subir`. -/
theorem App.goProyecto_routes_witness :
    (App.estadoArteLatest Ejemplo.base (Ejemplo.proyecto 1) Ejemplo.conEstadoArte =
        .ok (.obj [("version", .num 1), ("texto", .str "...")]) ∧
      (App.goProyecto Ejemplo.base (Ejemplo.proyecto 1) Ejemplo.conEstadoArte
        Ejemplo.uiLista).2.app.view = .brechas) ∧
    (∃ e, App.estadoArteLatest Ejemplo.base (Ejemplo.proyecto 1) Ejemplo.noEncontrado =
        .error e) ∧
    (App.goProyecto Ejemplo.base (Ejemplo.proyecto 1) Ejemplo.noEncontrado
      Ejemplo.uiLista).2.app.view = .subir := by
  refine ⟨⟨rfl, ?_⟩, ⟨_, rfl⟩, ?_⟩
  · exact (App.goProyecto_routes Ejemplo.base (Ejemplo.proyecto 1) Ejemplo.conEstadoArte
      Ejemplo.uiLista).2.2.1 _ rfl
  · exact (App.goProyecto_routes Ejemplo.base (Ejemplo.proyecto 1) Ejemplo.noEncontrado
      Ejemplo.uiLista).2.2.2.1 _ rfl

/-- C8: submitting the create-project form with `goBack = goList` ends
normally; when `jpost` succeeds the view becomes `list`; when it fails with
`e` the router state is unchanged (the view stays `create`) and the error
holder is `e`; and for a response with a non-success status the detail of that
error is the response body, parsed when it is JSON and raw otherwise. -/
theorem CrearProyecto.onSubmit_transitions (API_BASE : String) (payload : JVal)
    (rPost : FetchOutcome) (u : Ui CrearState) :
    (CrearProyecto.onSubmit API_BASE payload rPost App.goList u).1 = .ok () ∧
    (∀ v, jpost (API_BASE ++ "/proyectos") payload rPost = .ok v →
      (CrearProyecto.onSubmit API_BASE payload rPost App.goList u).2.app.view = .list ∧
      (CrearProyecto.onSubmit API_BASE payload rPost App.goList u).2.screen.err = none) ∧
    (∀ e, jpost (API_BASE ++ "/proyectos") payload rPost = .error e →
      (CrearProyecto.onSubmit API_BASE payload rPost App.goList u).2.app = u.app ∧
      (CrearProyecto.onSubmit API_BASE payload rPost App.goList u).2.screen.err = some e) ∧
    (∀ resp, rPost = .ok resp → resp.ok = false →
      ∃ e, (CrearProyecto.onSubmit API_BASE payload rPost App.goList u).2.screen.err = some e ∧
        e.detail = some (match resp.parse with
          | some j => j
          | none => .str resp.text) ∧
        (CrearProyecto.onSubmit API_BASE payload rPost App.goList u).2.app = u.app) := by
  refine ⟨?_, ?_, ?_, ?_⟩
  · cases hj : jpost (API_BASE ++ "/proyectos") payload rPost <;>
      simp [CrearProyecto.onSubmit, hj]
  · intro v hv
    simp [CrearProyecto.onSubmit, hv]
  · intro e he
    simp [CrearProyecto.onSubmit, he]
  · intro resp hr hok
    subst hr
    simp [CrearProyecto.onSubmit, jpost, hok, mkError]

/-- C8 at a sample form: a `200` answer leads to `list`; a `404` answer with a
JSON body leaves the view at `create` and stores that body as the detail. -/
theorem CrearProyecto.onSubmit_transitions_witness :
    (jpost (Ejemplo.base ++ "/proyectos") Ejemplo.payload Ejemplo.conEstadoArte =
        .ok (.obj [("version", .num 1), ("texto", .str "...")]) ∧
      (CrearProyecto.onSubmit Ejemplo.base Ejemplo.payload Ejemplo.conEstadoArte App.goList
        Ejemplo.uiCrear).2.app.view = .list) ∧
    ((Ejemplo.noEncontrado = .ok Ejemplo.resp404 ∧ Ejemplo.resp404.ok = false) ∧
      ∃ e, (CrearProyecto.onSubmit Ejemplo.base Ejemplo.payload Ejemplo.noEncontrado App.goList
          Ejemplo.uiCrear).2.screen.err = some e ∧
        e.detail = some (.obj [("detail", .str "Not Found")]) ∧
        (CrearProyecto.onSubmit Ejemplo.base Ejemplo.payload Ejemplo.noEncontrado App.goList
          Ejemplo.uiCrear).2.app.view = .create) := by
  refine ⟨⟨rfl, ?_⟩, ⟨rfl, rfl⟩, ?_⟩
  · exact ((CrearProyecto.onSubmit_transitions Ejemplo.base Ejemplo.payload
      Ejemplo.conEstadoArte Ejemplo.uiCrear).2.1 _ rfl).1
  · obtain ⟨e, he, hd, happ⟩ := (CrearProyecto.onSubmit_transitions Ejemplo.base
      Ejemplo.payload Ejemplo.noEncontrado Ejemplo.uiCrear).2.2.2 _ rfl rfl
    exact ⟨e, he, hd, by rw [happ]; rfl⟩

/-! ## Upload and batch analysis -/

/-- C9: `analizarTodo` with `goBack = goList`, for a project whose `id` can be
read: when `jpost` succeeds the call ends normally and the view becomes
`list`; when it fails with `e` the call ends normally, the router state is
unchanged (the view stays `subir`), the overlay is hidden and the error holder
is `e`. -/
theorem SubirArticulos.analizarTodo_transitions (API_BASE : String) (proyecto : JVal)
    (rPost : FetchOutcome) (u : Ui SubirState) (id : Option JVal)
    (hid : idOf proyecto = .ok id) :
    (∀ v, jpost (API_BASE ++ "/proyectos/" ++ templ id ++ "/analizar_todo") (.obj []) rPost
        = .ok v →
      (SubirArticulos.analizarTodo API_BASE proyecto rPost App.goList u).1 = .ok () ∧
      (SubirArticulos.analizarTodo API_BASE proyecto rPost App.goList u).2.app.view = .list) ∧
    (∀ e, jpost (API_BASE ++ "/proyectos/" ++ templ id ++ "/analizar_todo") (.obj []) rPost
        = .error e →
      (SubirArticulos.analizarTodo API_BASE proyecto rPost App.goList u).1 = .ok () ∧
      (SubirArticulos.analizarTodo API_BASE proyecto rPost App.goList u).2.app = u.app ∧
      (SubirArticulos.analizarTodo API_BASE proyecto rPost App.goList
        u).2.screen.overlay.shown = false ∧
      (SubirArticulos.analizarTodo API_BASE proyecto rPost App.goList u).2.screen.err
        = some e) := by
  refine ⟨?_, ?_⟩
  · intro v hv
    simp [SubirArticulos.analizarTodo, hid, hv]
  · intro e he
    simp [SubirArticulos.analizarTodo, hid, he]

/-- C9 at the first sample project with five articles: a `200` answer leads to
`list`; a rejected request leaves the view at `subir`, the overlay hidden and
the rejection in the error holder. -/
theorem SubirArticulos.analizarTodo_transitions_witness :
    idOf (Ejemplo.proyecto 1) = .ok (some (.num 1)) ∧
    (jpost (Ejemplo.base ++ "/proyectos/" ++ templ (some (.num 1)) ++ "/analizar_todo")
        (.obj []) Ejemplo.objetoVacio = .ok (.obj []) ∧
      (SubirArticulos.analizarTodo Ejemplo.base (Ejemplo.proyecto 1) Ejemplo.objetoVacio
        App.goList Ejemplo.uiSubir).2.app.view = .list) ∧
    (jpost (Ejemplo.base ++ "/proyectos/" ++ templ (some (.num 1)) ++ "/analizar_todo")
        (.obj []) Ejemplo.sinRed = .error (typeError "Failed to fetch") ∧
      (SubirArticulos.analizarTodo Ejemplo.base (Ejemplo.proyecto 1) Ejemplo.sinRed
        App.goList Ejemplo.uiSubir).2.app.view = .subir ∧
      (SubirArticulos.analizarTodo Ejemplo.base (Ejemplo.proyecto 1) Ejemplo.sinRed
        App.goList Ejemplo.uiSubir).2.screen.overlay.shown = false ∧
      (SubirArticulos.analizarTodo Ejemplo.base (Ejemplo.proyecto 1) Ejemplo.sinRed
        App.goList Ejemplo.uiSubir).2.screen.err = some (typeError "Failed to fetch")) := by
  have hid : idOf (Ejemplo.proyecto 1) = .ok (some (.num 1)) := rfl
  have key1 := (SubirArticulos.analizarTodo_transitions Ejemplo.base (Ejemplo.proyecto 1)
    Ejemplo.objetoVacio Ejemplo.uiSubir _ hid).1 _ rfl
  have key2 := (SubirArticulos.analizarTodo_transitions Ejemplo.base (Ejemplo.proyecto 1)
    Ejemplo.sinRed Ejemplo.uiSubir _ hid).2 _ rfl
  refine ⟨hid, ⟨rfl, key1.2⟩, rfl, ?_, key2.2.2.1, key2.2.2.2⟩
  rw [key2.2.1]
  rfl

/-- C10: `subirPDF` and `analizarTodo` end normally on every path — whatever
the outcomes of the upload request, of the reload that follows it and of the
analysis request, and whatever `goBack` does — and when they have ended `busy`
is false; after `analizarTodo` the overlay is hidden as well. -/
theorem SubirArticulos.busy_and_overlay_cleared (API_BASE : String) (proyecto : JVal)
    (rUpload rArts rPost : FetchOutcome) (goBack : Js SubirState Unit) (u : Ui SubirState) :
    (SubirArticulos.subirPDF API_BASE proyecto rUpload rArts u).1 = .ok () ∧
    (SubirArticulos.subirPDF API_BASE proyecto rUpload rArts u).2.screen.busy = false ∧
    (SubirArticulos.analizarTodo API_BASE proyecto rPost goBack u).1 = .ok () ∧
    (SubirArticulos.analizarTodo API_BASE proyecto rPost goBack u).2.screen.busy = false ∧
    (SubirArticulos.analizarTodo API_BASE proyecto rPost goBack u).2.screen.overlay.shown
      = false := by
  have hsubir : ∃ u1 : Ui SubirState, SubirArticulos.subirPDF API_BASE proyecto rUpload rArts u =
      (.ok (), { u1 with screen := { u1.screen with busy := false } }) := by
    simp only [SubirArticulos.subirPDF, Js.bind_run, Js.setScreen_run]
    exact Js.tryFinally_tryCatch_ok _ (fun (e : JsError) (s : SubirState) => { s with err := some e }) _
      (fun s : SubirState => { s with busy := false }) (fun _ => rfl) _
  have hanalizar : ∃ u1 : Ui SubirState, SubirArticulos.analizarTodo API_BASE proyecto rPost goBack u =
      (.ok (), { u1 with screen :=
        { u1.screen with busy := false, overlay := { shown := false, text := "Procesando…" } } })
      := by
    simp only [SubirArticulos.analizarTodo, Js.bind_run, Js.setScreen_run]
    exact Js.tryFinally_tryCatch_ok _ (fun (e : JsError) (s : SubirState) => { s with err := some e }) _
      (fun s : SubirState =>
        { s with busy := false, overlay := { shown := false, text := "Procesando…" } })
      (fun _ => rfl) _
  obtain ⟨u1, h1⟩ := hsubir
  obtain ⟨u2, h2⟩ := hanalizar
  rw [h1, h2]
  exact ⟨rfl, rfl, rfl, rfl, rfl⟩

/-- C11, as stated, fails: the upload is accepted and the reload that follows
is rejected; the call ends with the rejection in the error holder and with an
empty article list, where five articles were held before. -/
theorem SubirArticulos.subirPDF_reload_failure_empties_list :
    Ejemplo.uiSubir.screen.arts.length = 5 ∧
    (SubirArticulos.subirPDF Ejemplo.base (Ejemplo.proyecto 1) Ejemplo.subido Ejemplo.sinRed
      Ejemplo.uiSubir).2.screen.err = some (typeError "Failed to fetch") ∧
    (SubirArticulos.subirPDF Ejemplo.base (Ejemplo.proyecto 1) Ejemplo.subido Ejemplo.sinRed
      Ejemplo.uiSubir).2.screen.arts = [] := by
  refine ⟨rfl, rfl, rfl⟩

/-- C11, amended: for a project whose `id` can be read, when the upload request
itself fails (a rejected fetch or a non-success status) `subirPDF` ends with
an error in the holder and the article list exactly as before; when the upload
succeeds the list is replaced by the outcome of the reload: the list freshly
fetched from the backend when the reload succeeds, the empty list (with the
reload error in the holder) when the reload fails. -/
theorem SubirArticulos.subirPDF_article_list (API_BASE : String) (proyecto : JVal)
    (rUpload rArts : FetchOutcome) (u : Ui SubirState) (id : Option JVal)
    (hid : idOf proyecto = .ok id) :
    (∀ e, rUpload = .error e →
      (SubirArticulos.subirPDF API_BASE proyecto rUpload rArts u).2.screen.err = some e ∧
      (SubirArticulos.subirPDF API_BASE proyecto rUpload rArts u).2.screen.arts
        = u.screen.arts) ∧
    (∀ r, rUpload = .ok r → r.ok = false →
      (∃ e, (SubirArticulos.subirPDF API_BASE proyecto rUpload rArts u).2.screen.err
        = some e) ∧
      (SubirArticulos.subirPDF API_BASE proyecto rUpload rArts u).2.screen.arts
        = u.screen.arts) ∧
    (∀ r data, rUpload = .ok r → r.ok = true →
      jget (API_BASE ++ "/proyectos/" ++ templ id ++ "/articulos") rArts = .ok data →
      (SubirArticulos.subirPDF API_BASE proyecto rUpload rArts u).2.screen.err = none ∧
      (SubirArticulos.subirPDF API_BASE proyecto rUpload rArts u).2.screen.arts
        = data.asArray) ∧
    (∀ r e, rUpload = .ok r → r.ok = true →
      jget (API_BASE ++ "/proyectos/" ++ templ id ++ "/articulos") rArts = .error e →
      (SubirArticulos.subirPDF API_BASE proyecto rUpload rArts u).2.screen.err = some e ∧
      (SubirArticulos.subirPDF API_BASE proyecto rUpload rArts u).2.screen.arts = []) := by
  refine ⟨?_, ?_, ?_, ?_⟩
  · intro e he
    subst he
    simp [SubirArticulos.subirPDF, hid]
  · intro r hr hok
    subst hr
    cases hd : detailViaJson r <;>
      simp [SubirArticulos.subirPDF, hid, hok, hd]
  · intro r data hr hok hdata
    subst hr
    simp [SubirArticulos.subirPDF, SubirArticulos.load, hid, hok, hdata]
  · intro r e hr hok he
    subst hr
    simp [SubirArticulos.subirPDF, SubirArticulos.load, hid, hok, he]

/-- C11 amended, at an upload answered with a `404`: the five articles held
before are still held. -/
theorem SubirArticulos.subirPDF_article_list_witness :
    (idOf (Ejemplo.proyecto 1) = .ok (some (.num 1)) ∧
      Ejemplo.noEncontrado = .ok Ejemplo.resp404 ∧ Ejemplo.resp404.ok = false) ∧
    (SubirArticulos.subirPDF Ejemplo.base (Ejemplo.proyecto 1) Ejemplo.noEncontrado
      Ejemplo.dosArticulos Ejemplo.uiSubir).2.screen.arts = Ejemplo.uiSubir.screen.arts :=
  ⟨⟨rfl, rfl, rfl⟩, ((SubirArticulos.subirPDF_article_list Ejemplo.base (Ejemplo.proyecto 1)
    Ejemplo.noEncontrado Ejemplo.dosArticulos Ejemplo.uiSubir _ rfl).2.1 _ rfl rfl).2⟩

/-! ## Transport helpers -/

/-- What `jpost` and `jget` throw for a response with a non-success status:
`jpost` attaches the parsed body, or the raw text when the body is not JSON;
`jget` attaches the parsed body, and throws the error of the second body read
when the body is not JSON. -/
theorem transport_non_success (url : String) (body : JVal) (r : Response)
    (h : r.ok = false) :
    jpost url body (.ok r) =
      .error { mkError ("POST " ++ url ++ " → " ++ toString r.status) with
        detail := some (match r.parse with
          | some j => j
          | none => .str r.text) } ∧
    (∀ j, r.parse = some j →
      jget url (.ok r) =
        .error { mkError ("GET " ++ url ++ " → " ++ toString r.status) with detail := some j }) ∧
    (r.parse = none → jget url (.ok r) = .error bodyUsed) := by
  refine ⟨?_, ?_, ?_⟩
  · simp [jpost, h]
  · intro j hj
    simp [jget, h, detailViaJson, hj]
  · intro hj
    simp [jget, h, detailViaJson, hj]

/-- C12 at a `500` response whose body is the plain text
"Internal Server Error": `jpost` fails with an error whose detail is that
text, while `jget` fails with the `TypeError` of reading the consumed body
again, which carries no detail and neither the status nor the url. -/
theorem jget_plain_text_error_loses_detail :
    Ejemplo.resp500Texto.ok = false ∧ Ejemplo.resp500Texto.parse = none ∧
    jpost (Ejemplo.base ++ "/proyectos") Ejemplo.payload (.ok Ejemplo.resp500Texto) =
      .error { mkError ("POST " ++ (Ejemplo.base ++ "/proyectos") ++ " → " ++ toString 500) with
        detail := some (.str "Internal Server Error") } ∧
    jget (Ejemplo.base ++ "/proyectos") (.ok Ejemplo.resp500Texto) =
      .error (typeError "body stream already read") ∧
    (typeError "body stream already read").detail = none := by
  refine ⟨rfl, rfl, rfl, rfl, rfl⟩

/-- What the two helpers do with a success status and an empty body: `jpost`
yields the empty object, `jget` throws the parse error. -/
theorem transport_empty_success (url : String) (body : JVal) (r : Response)
    (hok : r.ok = true) (htext : r.text = "") :
    jpost url body (.ok r) = .ok (.obj []) ∧ jget url (.ok r) = .error syntaxError := by
  constructor
  · simp [jpost, hok, htext]
  · simp [jget, hok, Response.parse, htext]

/-- C13 at a `200` response with an empty body: `jpost` yields the empty
object, while `jget` fails with the `SyntaxError` of parsing the empty text. -/
theorem jget_empty_body_fails :
    Ejemplo.resp200Vacio.ok = true ∧ Ejemplo.resp200Vacio.text = "" ∧
    jpost (Ejemplo.base ++ "/proyectos") Ejemplo.payload (.ok Ejemplo.resp200Vacio) =
      .ok (.obj []) ∧
    jget (Ejemplo.base ++ "/proyectos") (.ok Ejemplo.resp200Vacio) = .error syntaxError := by
  refine ⟨rfl, rfl, rfl, rfl⟩

/-! ## Gaps and exports -/

/-- C14: `verBrechas` for an article whose `id` can be read: when the request
yields the empty list, the call ends normally with the modal and the error
holder as they were (so a closed modal stays closed) and the notice
"Sin brechas"; when it yields a list whose first element is a record (any
object, or any truthy value), the modal is opened with exactly that first
element as payload, and the error holder is as it was. -/
theorem BrechasProyecto.verBrechas_first_record (API_BASE : String) (art : JVal)
    (rBrechas : FetchOutcome) (u : Ui BrechasState) (id : Option JVal)
    (hid : idOf art = .ok id) :
    (jget (API_BASE ++ "/articulos/" ++ templ id ++ "/brechas") rBrechas = .ok (.arr []) →
      BrechasProyecto.verBrechas API_BASE art rBrechas u =
        (.ok (), { u with alerts := u.alerts ++ ["Sin brechas"] })) ∧
    (∀ x rest,
      jget (API_BASE ++ "/articulos/" ++ templ id ++ "/brechas") rBrechas
        = .ok (.arr (x :: rest)) →
      x.truthy = true →
      BrechasProyecto.verBrechas API_BASE art rBrechas u =
        (.ok (), { u with screen := { u.screen with modal :=
          { isOpen := true, title := BrechasProyecto.titulo art, payload := x } } })) ∧
    (∀ campos rest,
      jget (API_BASE ++ "/articulos/" ++ templ id ++ "/brechas") rBrechas
        = .ok (.arr (.obj campos :: rest)) →
      (BrechasProyecto.verBrechas API_BASE art rBrechas u).1 = .ok () ∧
      (BrechasProyecto.verBrechas API_BASE art rBrechas u).2.screen.modal.isOpen = true ∧
      (BrechasProyecto.verBrechas API_BASE art rBrechas u).2.screen.modal.payload
        = .obj campos ∧
      (BrechasProyecto.verBrechas API_BASE art rBrechas u).2.screen.err = u.screen.err) := by
  refine ⟨?_, ?_, ?_⟩
  · intro h
    simp [BrechasProyecto.verBrechas, hid, h, JVal.primero]
  · intro x rest h hx
    simp [BrechasProyecto.verBrechas, hid, h, JVal.primero, hx]
  · intro campos rest h
    simp [BrechasProyecto.verBrechas, hid, h, JVal.primero, JVal.truthy]

/-- C14 at the sample article: an empty list leaves the modal closed and the
error holder empty; two records open the modal on the first one. -/
theorem BrechasProyecto.verBrechas_first_record_witness :
    idOf Ejemplo.articulo = .ok (some (.num 10)) ∧
    (jget (Ejemplo.base ++ "/articulos/" ++ templ (some (.num 10)) ++ "/brechas")
        Ejemplo.listaVacia = .ok (.arr []) ∧
      (BrechasProyecto.verBrechas Ejemplo.base Ejemplo.articulo Ejemplo.listaVacia
        Ejemplo.uiBrechas).2.screen.modal.isOpen = false ∧
      (BrechasProyecto.verBrechas Ejemplo.base Ejemplo.articulo Ejemplo.listaVacia
        Ejemplo.uiBrechas).2.screen.err = none) ∧
    (jget (Ejemplo.base ++ "/articulos/" ++ templ (some (.num 10)) ++ "/brechas")
        Ejemplo.dosBrechas
        = .ok (.arr [Ejemplo.brecha "metodologica", Ejemplo.brecha "teorica"]) ∧
      (BrechasProyecto.verBrechas Ejemplo.base Ejemplo.articulo Ejemplo.dosBrechas
        Ejemplo.uiBrechas).2.screen.modal.isOpen = true ∧
      (BrechasProyecto.verBrechas Ejemplo.base Ejemplo.articulo Ejemplo.dosBrechas
        Ejemplo.uiBrechas).2.screen.modal.payload = Ejemplo.brecha "metodologica") := by
  have hid : idOf Ejemplo.articulo = .ok (some (.num 10)) := rfl
  have key := BrechasProyecto.verBrechas_first_record Ejemplo.base Ejemplo.articulo
    Ejemplo.listaVacia Ejemplo.uiBrechas _ hid
  have key2 := (BrechasProyecto.verBrechas_first_record Ejemplo.base Ejemplo.articulo
    Ejemplo.dosBrechas Ejemplo.uiBrechas _ hid).2.2 _ _ rfl
  refine ⟨hid, ⟨rfl, ?_, ?_⟩, rfl, key2.2.1, key2.2.2.1⟩
  · rw [key.1 rfl]
    rfl
  · rw [key.1 rfl]
    rfl

/-- C15, as stated, fails: the metrics download is answered with a `500`; the
action ends normally with the error holder still empty, the failure being
reported by the dialog "No se pudo descargar métricas". -/
theorem BrechasProyecto.metricas_failure_not_in_holder :
    (∃ e, (downloadFile (Ejemplo.base ++ "/proyectos/" ++ templ (some (.num 1)) ++ "/metrics/plots")
      ("metricas_" ++ templ (some (.num 1)) ++ ".zip") Ejemplo.falloServidor
      Ejemplo.uiBrechas).1 = .error e) ∧
    (BrechasProyecto.onClickMetricas Ejemplo.base (Ejemplo.proyecto 1) Ejemplo.falloServidor
      Ejemplo.uiBrechas).1 = .ok () ∧
    (BrechasProyecto.onClickMetricas Ejemplo.base (Ejemplo.proyecto 1) Ejemplo.falloServidor
      Ejemplo.uiBrechas).2.screen.err = none ∧
    (BrechasProyecto.onClickMetricas Ejemplo.base (Ejemplo.proyecto 1) Ejemplo.falloServidor
      Ejemplo.uiBrechas).2.alerts = ["No se pudo descargar métricas"] := by
  refine ⟨⟨_, rfl⟩, rfl, rfl, rfl⟩

/-- C15, amended: for a project whose `id` can be read and a download that
fails (a rejected fetch or a non-success status), each of the three export
actions ends normally, the failure being caught at the action; the dashboard
action stores the error thrown by `downloadFile` in the error holder (and logs
it); the metrics action leaves the error holder as it was and reports the
failure by the dialog "No se pudo descargar métricas". -/
theorem BrechasProyecto.export_failures_caught (API_BASE : String) (proyecto : JVal)
    (r : FetchOutcome) (u : Ui BrechasState) (id : Option JVal)
    (hid : idOf proyecto = .ok id)
    (hfail : (∃ e0, r = .error e0) ∨ (∃ resp, r = .ok resp ∧ resp.ok = false)) :
    BrechasProyecto.onClickMetricas API_BASE proyecto r u =
      (.ok (), { u with alerts := u.alerts ++ ["No se pudo descargar métricas"] }) ∧
    (∃ e,
      (downloadFile (API_BASE ++ "/export/proyectos/" ++ templ id ++ "/dashboard.pdf")
        ("dashboard_" ++ templ id ++ ".pdf") r u).1 = .error e ∧
      BrechasProyecto.onClickDashboard API_BASE proyecto r u =
        (.ok (), { u with consola := u.consola ++ [e],
                          screen := { u.screen with err := some e } })) ∧
    (BrechasProyecto.onClickMatrizPDF API_BASE proyecto r u).1 = .ok () := by
  rcases hfail with ⟨e0, rfl⟩ | ⟨resp, rfl, hok⟩
  · refine ⟨?_, ⟨e0, ?_, ?_⟩, ?_⟩
    · simp [BrechasProyecto.onClickMetricas, downloadFile, hid]
    · simp [downloadFile]
    · simp [BrechasProyecto.onClickDashboard, downloadFile, hid, Js.consoleError]
    · simp [BrechasProyecto.onClickMatrizPDF, downloadFile, hid, Js.consoleError]
  · cases hd : detailViaJson resp with
    | error e1 =>
      refine ⟨?_, ⟨e1, ?_, ?_⟩, ?_⟩
      · simp [BrechasProyecto.onClickMetricas, downloadFile, hid, hok, hd]
      · simp [downloadFile, hok, hd]
      · simp [BrechasProyecto.onClickDashboard, downloadFile, hid, hok, hd, Js.consoleError]
      · simp [BrechasProyecto.onClickMatrizPDF, downloadFile, hid, hok, hd, Js.consoleError]
    | ok detail =>
      refine ⟨?_, ⟨{ mkError ("DOWNLOAD " ++
        (API_BASE ++ "/export/proyectos/" ++ templ id ++ "/dashboard.pdf") ++ " → " ++
        toString resp.status) with detail := some detail }, ?_, ?_⟩, ?_⟩
      · simp [BrechasProyecto.onClickMetricas, downloadFile, hid, hok, hd]
      · simp [downloadFile, hok, hd]
      · simp [BrechasProyecto.onClickDashboard, downloadFile, hid, hok, hd, Js.consoleError]
      · simp [BrechasProyecto.onClickMatrizPDF, downloadFile, hid, hok, hd, Js.consoleError]

/-- C15 amended, at the first sample project with downloads answered by a
`500`: the dashboard action fills the error holder, the metrics action shows
its dialog. -/
theorem BrechasProyecto.export_failures_caught_witness :
    (idOf (Ejemplo.proyecto 1) = .ok (some (.num 1)) ∧
      ∃ resp, Ejemplo.falloServidor = .ok resp ∧ resp.ok = false) ∧
    (BrechasProyecto.onClickMetricas Ejemplo.base (Ejemplo.proyecto 1) Ejemplo.falloServidor
      Ejemplo.uiBrechas).2.alerts = ["No se pudo descargar métricas"] ∧
    ∃ e, (BrechasProyecto.onClickDashboard Ejemplo.base (Ejemplo.proyecto 1)
      Ejemplo.falloServidor Ejemplo.uiBrechas).2.screen.err = some e := by
  have hid : idOf (Ejemplo.proyecto 1) = .ok (some (.num 1)) := rfl
  have hresp : ∃ resp, Ejemplo.falloServidor = .ok resp ∧ resp.ok = false := ⟨_, rfl, rfl⟩
  have key := BrechasProyecto.export_failures_caught Ejemplo.base (Ejemplo.proyecto 1)
    Ejemplo.falloServidor Ejemplo.uiBrechas _ hid (Or.inr hresp)
  obtain ⟨hm, ⟨e, _, hd⟩, _⟩ := key
  refine ⟨⟨hid, hresp⟩, ?_, e, ?_⟩
  · rw [hm]
    rfl
  · rw [hd]

/-! ## Router state -/

/-- C16: from any state, `goList` ends normally in the state with view `list`
and no selected project; `goProyecto(p)` leaves `p` as the selected project
whatever was selected before, and a second selection replaces the first: the
router holds a single selection. -/
theorem App.selection_replaced_or_cleared {σ : Type} (API_BASE : String) (u : Ui σ)
    (p q : JVal) (rp rq : FetchOutcome) :
    (App.goList u).1 = .ok () ∧
    (App.goList u).2.app = { view := .list, proyectoSel := .null } ∧
    (App.goProyecto API_BASE p rp u).2.app.proyectoSel = p ∧
    (App.goProyecto API_BASE q rq (App.goProyecto API_BASE p rp u).2).2.app.proyectoSel = q ∧
    (App.goList (App.goProyecto API_BASE p rp u).2).2.app.proyectoSel = .null :=
  ⟨rfl, rfl, rfl, rfl, rfl⟩

/-! ## Upload table -/

/-- C17, as stated, fails: at a target of `2^32` with no article uploaded,
`faltantes` is `2^32`, `Array.from` throws a `RangeError` and no row list is
built. -/
theorem SubirArticulos.filas_range_error :
    SubirArticulos.faltantes 4294967296 [] = 4294967296 ∧
    SubirArticulos.filas 4294967296 [] = .error (rangeError "Invalid array length") := by
  constructor
  · decide
  · simp [SubirArticulos.filas, arrayFromLength, SubirArticulos.faltantes]

/-- C17, amended: for a target `T` below `2^32` the rows `filas` are built and
are the articles followed by `faltantes` `null` placeholders: the length is
`max(T, C)`, entry `i` is article `i` for `i < C`, and every entry from `C` on
is `null`; once `faltantes` reaches `2^32`, building the placeholders throws a
`RangeError`. -/
theorem SubirArticulos.filas_layout (T : Int) (arts : List JVal) :
    (T < 4294967296 →
      ∃ rows, SubirArticulos.filas T arts = .ok rows ∧
        rows = arts ++ List.replicate (SubirArticulos.faltantes T arts).toNat JVal.null ∧
        (rows.length : Int) = max T (arts.length : Int) ∧
        (rows.length : Int) = (arts.length : Int) + SubirArticulos.faltantes T arts ∧
        (∀ i, i < arts.length → rows[i]? = arts[i]?) ∧
        (∀ i, arts.length ≤ i → i < rows.length → rows[i]? = some JVal.null)) ∧
    (4294967296 ≤ SubirArticulos.faltantes T arts →
      SubirArticulos.filas T arts = .error (rangeError "Invalid array length")) := by
  have hnonneg : 0 ≤ SubirArticulos.faltantes T arts := le_max_left _ _
  constructor
  · intro hT
    have hsmall : ¬ (4294967296 ≤ SubirArticulos.faltantes T arts) := by
      unfold SubirArticulos.faltantes
      omega
    have hfilas : SubirArticulos.filas T arts =
        .ok (arts ++ List.replicate (SubirArticulos.faltantes T arts).toNat JVal.null) := by
      simp only [SubirArticulos.filas, arrayFromLength, if_neg hsmall]
      simp
    refine ⟨_, hfilas, rfl, ?_, ?_, ?_, ?_⟩
    · simp only [List.length_append, List.length_replicate]
      push_cast
      rw [Int.toNat_of_nonneg hnonneg]
      unfold SubirArticulos.faltantes
      omega
    · simp only [List.length_append, List.length_replicate]
      push_cast
      rw [Int.toNat_of_nonneg hnonneg]
    · intro i hi
      rw [List.getElem?_append_left hi]
    · intro i hle hlt
      simp only [List.length_append, List.length_replicate] at hlt
      rw [List.getElem?_append_right hle, List.getElem?_replicate]
      simp
      omega
  · intro hbig
    simp only [SubirArticulos.filas, arrayFromLength, if_pos hbig]
    rfl

/-- C17 amended, at a target of five with two articles uploaded: five rows, the
third a placeholder. -/
theorem SubirArticulos.filas_layout_witness :
    (5 : Int) < 4294967296 ∧
    ∃ rows, SubirArticulos.filas 5 Ejemplo.dosArts = .ok rows ∧
      (rows.length : Int) = max 5 (Ejemplo.dosArts.length : Int) ∧
      rows[2]? = some JVal.null := by
  obtain ⟨rows, hrows, _, hlen, _, _, hnull⟩ :=
    (SubirArticulos.filas_layout 5 Ejemplo.dosArts).1 (by decide)
  refine ⟨by decide, rows, hrows, hlen, hnull 2 (by decide) ?_⟩
  have h5 : max (5 : Int) (Ejemplo.dosArts.length : Int) = 5 := by decide
  rw [h5] at hlen
  omega

/-! ## Routing invariant -/

theorem App.seleccionado_init : App.Seleccionado AppState.init := by
  intro h
  rcases h with h | h <;> cases h

theorem App.seleccionado_paso (API_BASE : String) (s : AppState) (ev : App.Evento)
    (_hs : App.Seleccionado s) : App.Seleccionado (App.paso API_BASE s ev) := by
  cases ev with
  | goCreate =>
    intro h
    rcases h with h | h <;> cases h
  | goList =>
    intro h
    rcases h with h | h <;> cases h
  | goProyecto campos rEstado =>
    intro _
    rfl

theorem App.seleccionado_foldl (API_BASE : String) (evs : List App.Evento) (s : AppState)
    (hs : App.Seleccionado s) : App.Seleccionado (evs.foldl (App.paso API_BASE) s) := by
  induction evs generalizing s with
  | nil => exact hs
  | cons ev rest ih => exact ih _ (App.seleccionado_paso API_BASE s ev hs)

/-- C18: in the state reached from the initial state of `App` by any sequence
of `goCreate`, `goList` and `goProyecto(p)` (with `p` a project), a view
`subir` or `brechas` comes with a selected project, and the router then mounts
the upload screen, respectively the gaps screen, of that project, never the
project list. -/
theorem App.stage_view_has_selection (API_BASE : String) (evs : List App.Evento) :
    ((App.ejecutar API_BASE evs).view = .subir ∨ (App.ejecutar API_BASE evs).view = .brechas →
      (App.ejecutar API_BASE evs).proyectoSel.truthy = true) ∧
    ((App.ejecutar API_BASE evs).view = .subir →
      App.content (App.ejecutar API_BASE evs) =
        .SubirArticulos (App.ejecutar API_BASE evs).proyectoSel) ∧
    ((App.ejecutar API_BASE evs).view = .brechas →
      App.content (App.ejecutar API_BASE evs) =
        .BrechasProyecto (App.ejecutar API_BASE evs).proyectoSel) := by
  have hinv : App.Seleccionado (App.ejecutar API_BASE evs) :=
    App.seleccionado_foldl API_BASE evs AppState.init App.seleccionado_init
  refine ⟨hinv, ?_, ?_⟩
  · intro hv
    have ht := hinv (Or.inl hv)
    simp [App.content, hv, ht]
  · intro hv
    have ht := hinv (Or.inr hv)
    simp [App.content, hv, ht]

/-- C18 after "go to projects", then the selection of the first sample project
when its analysis result is missing: the view is `subir` and the upload screen
of that project is mounted. -/
theorem App.stage_view_has_selection_witness :
    (App.ejecutar Ejemplo.base
      [.goList, .goProyecto Ejemplo.camposProyecto Ejemplo.noEncontrado]).view = .subir ∧
    App.content (App.ejecutar Ejemplo.base
      [.goList, .goProyecto Ejemplo.camposProyecto Ejemplo.noEncontrado]) =
        .SubirArticulos (.obj Ejemplo.camposProyecto) :=
  ⟨rfl, (App.stage_view_has_selection Ejemplo.base
    [.goList, .goProyecto Ejemplo.camposProyecto Ejemplo.noEncontrado]).2.1 rfl⟩

end CapstoneMatriz
